import Mathlib

/-!
LWM2M notification attributes: the report scheduler of `LWM2M_resource.cpp`.

A shallow embedding of the notification logic of `src/LWM2M_resource.cpp`
(the same functions appear, line for line, in `src/LWM2M_resource_attributes.cpp`).

Modelling conventions.

* The C type `sample` (`typedef float sample`) and the `float` attributes are
  modelled by `ℚ`: comparisons are total and `+`, `-` are exact.  Rounding,
  infinities and NaN of IEEE arithmetic are outside the model.
* The file-scope variables of the program are the fields of `State`; every C
  function that reads or writes them is a function `State → ... → State`.
* An mbed `Ticker` is modelled by what is attached to it: nothing, or a handler
  together with its interval.  Elapsing of time is not modelled; the expiry of a
  timer is the call of its handler (`on_pmin`, `on_pmax`).
* `pc.printf` diagnostics have no effect on the variables and are left out.
-/

namespace LWM2M

/-- The scalar type of a sensor reading: `typedef float sample`. -/
abbrev sample := ℚ

/-- The two timer handlers that are ever attached to a `Ticker`. -/
inductive Handler where
  | on_pmin
  | on_pmax
  deriving DecidableEq, Repr

/-- An mbed `Ticker`: `attached = none` when detached, otherwise the handler and
the interval given to `attach`. -/
structure Ticker where
  attached : Option (Handler × sample)
  deriving DecidableEq, Repr

/-- The call `t.detach()`. -/
def Ticker.detach (_t : Ticker) : Ticker := { attached := none }

/-- The call `t.attach(&h, interval)`. -/
def Ticker.attach (_t : Ticker) (h : Handler) (interval : sample) : Ticker :=
  { attached := some (h, interval) }

/-- `#define MAX_LIMITS 2`. -/
def MAX_LIMITS : Nat := 2

/-- The file-scope variables of `LWM2M_resource.cpp`. -/
structure State where
  /-- The `uint8_t` observation sequence number. -/
  LWM2M_obs_number : Nat
  LWM2M_gt : sample
  LWM2M_lt : sample
  LWM2M_step : sample
  LWM2M_pmax : sample
  LWM2M_pmin : sample
  attribute_update : Bool
  /-- The trigger flag of the mailbox. -/
  notification_trigger : Bool
  current_sample : sample
  last_sample : sample
  /-- The mailbox value. -/
  notify_sample : sample
  LWM2M_observing : Bool
  pmax_exceeded : Bool
  pmin_trigger : Bool
  /-- The array `limits[MAX_LIMITS]`; `num_limits` is its length. -/
  limits : List sample
  last_band : Int
  high_step : sample
  low_step : sample
  pmin_exceeded : Bool
  report_scheduled : Bool
  pmin_timer : Ticker
  pmax_timer : Ticker
  deriving DecidableEq, Repr

/-- The `for` loop of `band`, entered with loop index `limit` and the cells
`limits[limit], limits[limit+1], ...` still to be visited; running off the end of
the array reaches the final `return -1`. -/
def band_loop (s : sample) : List sample → Nat → Int
  | [], _ => -1
  | l :: rest, limit => if s ≤ l then (limit : Int) else band_loop s rest (limit + 1)

/-- The function `int band(sample s)` over the limit array `limits`, with
`num_limits = limits.length`.  The first test reads `limits[num_limits-1]`, the
last cell; for an empty array that read is out of bounds in C, and the model goes
on to the loop. -/
def band (limits : List sample) (s : sample) : Int :=
  match limits.getLast? with
  | some top => if s > top then (limits.length : Int) else band_loop s limits 0
  | none => band_loop s limits 0

/-- The function `send_notification`: write the mailbox and set the trigger; the
returned flag is always `true`. -/
def send_notification (st : State) (s : sample) : State × Bool :=
  ({ st with notify_sample := s, notification_trigger := true }, true)

/-- The function `get_sample`. -/
def get_sample (st : State) : sample := st.current_sample

/-- The function `report_sample`; the `Int` is its return value. -/
def report_sample (st : State) (s : sample) : State × Int :=
  match send_notification st s with
  | (st1, true) =>
    let st2 := { st1 with last_band := band st1.limits s }
    let st3 := { st2 with high_step := s + st2.LWM2M_step }
    let st4 := { st3 with low_step := s - st3.LWM2M_step }
    let st5 := { st4 with pmin_timer := st4.pmin_timer.detach }
    let st6 := { st5 with pmin_exceeded := false }
    let st7 := { st6 with pmin_timer := st6.pmin_timer.attach Handler.on_pmin st6.LWM2M_pmin }
    let st8 := { st7 with pmax_timer := st7.pmax_timer.detach }
    let st9 := { st8 with pmax_timer := st8.pmax_timer.attach Handler.on_pmax st8.LWM2M_pmax }
    (st9, 1)
  | (st1, false) => (st1, 0)

/-- The handler `on_pmin` of the pmin timer. -/
def on_pmin (st : State) : State :=
  if st.report_scheduled then
    let st1 := { st with report_scheduled := false }
    let st2 := { st1 with pmin_trigger := true }
    (report_sample st2 (get_sample st2)).1
  else
    let st1 := { st with pmin_exceeded := true }
    { st1 with pmin_timer := st1.pmin_timer.detach }

/-- The handler `on_pmax` of the pmax timer. -/
def on_pmax (st : State) : State :=
  let st1 := (report_sample st (get_sample st)).1
  { st1 with pmax_exceeded := true }

/-- The function `schedule_report`. -/
def schedule_report (st : State) (s : sample) : State :=
  if st.pmin_exceeded then
    (report_sample st s).1
  else
    { st with report_scheduled := true }

/-- The function `on_update`, the callback of the sensor driver. -/
def on_update (st : State) (s : sample) : State :=
  if band st.limits s ≠ st.last_band ∨ s ≥ st.high_step ∨ s ≤ st.low_step then
    schedule_report st s
  else
    st

/-- The function `LWM2M_notification_init`: both cells of `limits` are assigned,
then the current sample is reported. -/
def LWM2M_notification_init (st : State) : State :=
  let st1 := { st with limits := [st.LWM2M_lt, st.LWM2M_gt] }
  (report_sample st1 (get_sample st1)).1

/-- The function `LWM2M_start_notification`. -/
def LWM2M_start_notification (st : State) : State :=
  LWM2M_notification_init { st with LWM2M_observing := true }

/-- The function `LWM2M_stop_notification`. -/
def LWM2M_stop_notification (st : State) : State :=
  { st with LWM2M_observing := false }

/-- The variables as the initialisers of the program leave them, the attribute
defaults `D_GT, D_LT, D_STEP, D_PMAX, D_PMIN` of `LWM2M_resource.h` being
parameters. -/
def initial_state (D_GT D_LT D_STEP D_PMAX D_PMIN : sample) : State :=
  { LWM2M_obs_number := 0
    LWM2M_gt := D_GT
    LWM2M_lt := D_LT
    LWM2M_step := D_STEP
    LWM2M_pmax := D_PMAX
    LWM2M_pmin := D_PMIN
    attribute_update := false
    notification_trigger := false
    current_sample := 0
    last_sample := 0
    notify_sample := 0
    LWM2M_observing := false
    pmax_exceeded := false
    pmin_trigger := false
    limits := [0, 0]
    last_band := 0
    high_step := 0
    low_step := 0
    pmin_exceeded := false
    report_scheduled := false
    pmin_timer := { attached := none }
    pmax_timer := { attached := none } }

/-- The test of `on_update`: the sample lies in another band than the last
reported one, or on or outside the step window. -/
def reportable (st : State) (s : sample) : Bool :=
  decide (band st.limits s ≠ st.last_band ∨ s ≥ st.high_step ∨ s ≤ st.low_step)

/-- A finite sequence of `on_update` calls, in order. -/
def updates (st : State) (ss : List sample) : State :=
  ss.foldl on_update st

/-- The scenario `lt = 50`, `gt = 60`, `step = 5`, `pmin = 10`, `pmax = 60`: the
state right after the observation was started with the sensor reading `55`. -/
def scenario_start : State :=
  LWM2M_start_notification { initial_state 60 50 5 60 10 with current_sample := 55 }

/-- The scenario, three seconds later: the sample `61` has arrived inside the quiet
period, so a report is scheduled for the expiry of pmin. -/
def scenario_pending : State :=
  on_update scenario_start 61

/-- The scenario with the deferred report still pending when a report is made for
another reason (the pmax handler, or re-initialisation after an attribute update):
the state right after that `report_sample` of the current sample `55`. -/
def scenario_rereported : State :=
  (report_sample scenario_pending 55).1

/-- What the notification thread hands to `sn_nsdl_send_observation_notification`:
the mailbox value (sent as its `"%3.1f"` text) and the observation number. -/
structure Notification where
  payload : sample
  obs_number : Nat
  deriving DecidableEq, Repr

/-- The first half of one pass of the loop of `LWM2M_notification_thread`: the sensor
is read (`reading` is the value of `LWM2M_Sensor.read()`), and `on_update` is called
when the sample differs from the last one and the session is observing. -/
def LWM2M_notification_thread_sample (st : State) (reading : sample) : State :=
  let st1 := { st with current_sample := reading * 100 }
  if st1.current_sample ≠ st1.last_sample ∧ st1.LWM2M_observing = true then
    let st2 := { st1 with last_sample := st1.current_sample }
    on_update st2 st2.current_sample
  else
    st1

/-- The second half of one pass of the loop of `LWM2M_notification_thread`: when
triggered and observing, the observation number is incremented (a `uint8_t`) and the
mailbox value is sent; `send_result` is the value the transport call returns, `0`
meaning failure.  The second component is the notification handed to the transport,
if any. -/
def LWM2M_notification_thread_dispatch (st : State) (send_result : Nat) :
    State × Option Notification :=
  if st.notification_trigger = true ∧ st.LWM2M_observing = true then
    let st1 := if st.pmax_exceeded then { st with pmax_exceeded := false } else st
    let st2 := if st1.pmin_trigger then { st1 with pmin_trigger := false } else st1
    let st3 := { st2 with LWM2M_obs_number := (st2.LWM2M_obs_number + 1) % 256 }
    let sent : Notification :=
      { payload := st3.notify_sample, obs_number := st3.LWM2M_obs_number }
    if send_result = 0 then
      (st3, some sent)
    else
      ({ st3 with notification_trigger := false }, some sent)
  else
    (st, none)

/-- One pass of the loop of `LWM2M_notification_thread`. -/
def LWM2M_notification_thread (st : State) (reading : sample) (send_result : Nat) :
    State × Option Notification :=
  LWM2M_notification_thread_dispatch (LWM2M_notification_thread_sample st reading) send_result

/-- One query option as `set_notification_attribute` sees it after its two `strtok`
calls: `attr` is the token before `=`, and `value` is the number `sscanf` with `"%f"`
converts from the token after it (`none` when nothing is converted). -/
structure QueryOption where
  attr : String
  value : Option sample
  deriving DecidableEq, Repr

/-- The call `sscanf(value, "%f", &var)`: the variable takes the converted number and
keeps its content when nothing is converted. -/
def sscanf_f (value : Option sample) (var : sample) : sample :=
  match value with
  | some x => x
  | none => var

/-- The function `set_notification_attribute`. -/
def set_notification_attribute (st : State) (o : QueryOption) : State :=
  if o.attr = "pmin" then
    { st with LWM2M_pmin := sscanf_f o.value st.LWM2M_pmin, attribute_update := true }
  else if o.attr = "pmax" then
    { st with LWM2M_pmax := sscanf_f o.value st.LWM2M_pmax, attribute_update := true }
  else if o.attr = "gt" then
    { st with LWM2M_gt := sscanf_f o.value st.LWM2M_gt, attribute_update := true }
  else if o.attr = "lt" then
    { st with LWM2M_lt := sscanf_f o.value st.LWM2M_lt, attribute_update := true }
  else if o.attr = "st" then
    { st with LWM2M_step := sscanf_f o.value st.LWM2M_step, attribute_update := true }
  else if o.attr = "cancel" then
    { LWM2M_stop_notification st with attribute_update := true }
  else
    st

/-- The response codes `LWM2M_resource_cb` builds for a PUT with query options. -/
inductive sn_coap_msg_code where
  | COAP_MSG_CODE_RESPONSE_CHANGED
  | COAP_MSG_CODE_RESPONSE_BAD_REQUEST
  deriving DecidableEq, Repr

/-- The loop `for (option ...) set_notification_attribute(query_options[option])` of
`LWM2M_resource_cb`. -/
def set_notification_attributes (st : State) (query_options : List QueryOption) : State :=
  query_options.foldl set_notification_attribute st

/-- The write-attributes part of the PUT branch of `LWM2M_resource_cb`, for a request
with query options: the options (already cut at `&`) are applied one by one, then the
notification state is re-initialised and 2.04 is answered when one of them was
recognised, and 4.00 is answered otherwise.  The array `query_options[5][20]` holds
five options of at most 19 characters; longer queries are outside the model. -/
def LWM2M_resource_cb_query (st : State) (query_options : List QueryOption) :
    State × sn_coap_msg_code :=
  let st1 := { st with attribute_update := false }
  let st2 := set_notification_attributes st1 query_options
  if st2.attribute_update then
    (LWM2M_notification_init st2, sn_coap_msg_code.COAP_MSG_CODE_RESPONSE_CHANGED)
  else
    (st2, sn_coap_msg_code.COAP_MSG_CODE_RESPONSE_BAD_REQUEST)

/-- The attribute names `set_notification_attribute` compares with. -/
def recognised (attr : String) : Bool :=
  decide (attr = "pmin" ∨ attr = "pmax" ∨ attr = "gt" ∨ attr = "lt" ∨ attr = "st" ∨
    attr = "cancel")

/-- The entry points of the notification logic, as steps of a run. -/
inductive Op where
  | update (s : sample)
  | schedule (s : sample)
  | report (s : sample)
  | pmin
  | pmax
  | reinit
  | write_attributes (query_options : List QueryOption)
  | start
  | stop
  | thread (reading : sample) (send_result : Nat)
  deriving DecidableEq, Repr

/-- One step of a run: the state afterwards and the notifications handed to the
transport during the step. -/
def Op.run (st : State) : Op → State × List Notification
  | Op.update s => (on_update st s, [])
  | Op.schedule s => (schedule_report st s, [])
  | Op.report s => ((report_sample st s).1, [])
  | Op.pmin => (on_pmin st, [])
  | Op.pmax => (on_pmax st, [])
  | Op.reinit => (LWM2M_notification_init st, [])
  | Op.write_attributes q => ((LWM2M_resource_cb_query st q).1, [])
  | Op.start => (LWM2M_start_notification st, [])
  | Op.stop => (LWM2M_stop_notification st, [])
  | Op.thread reading send_result =>
    ((LWM2M_notification_thread st reading send_result).1,
      (LWM2M_notification_thread st reading send_result).2.toList)

/-- A run: the steps in order, with all notifications handed to the transport. -/
def run_ops (st : State) : List Op → State × List Notification
  | [] => (st, [])
  | op :: rest =>
    ((run_ops (Op.run st op).1 rest).1, (Op.run st op).2 ++ (run_ops (Op.run st op).1 rest).2)

/-- The scenario after the observation was stopped with a report still deferred. -/
def scenario_stopped : State :=
  LWM2M_stop_notification scenario_pending

/-- The scenario with `step = 0`, after pmin has expired with nothing pending: the
observation was started with the reading `55` and `on_pmin` has run once. -/
def scenario_zero_step : State :=
  on_pmin (LWM2M_start_notification { initial_state 60 50 0 60 10 with current_sample := 55 })

/-- What one operation can do to the scheduler flags and the timers, from the state
`st` before to the state `st2` after: leave them as they are; make a report
(`pmin_exceeded` clear, both timers attached); defer a report inside the quiet period
(flags only, `pmin_exceeded` clear before and after); or end the quiet period with
nothing pending (`pmin_exceeded` set, pmin timer detached). -/
def sched_step (st st2 : State) : Prop :=
  (st2.pmin_exceeded = st.pmin_exceeded ∧ st2.report_scheduled = st.report_scheduled ∧
    st2.pmin_timer = st.pmin_timer ∧ st2.pmax_timer = st.pmax_timer) ∨
  (st2.pmin_exceeded = false ∧ st2.pmin_timer.attached.isSome = true ∧
    st2.pmax_timer.attached.isSome = true) ∨
  (st.pmin_exceeded = false ∧ st2.pmin_exceeded = false ∧
    st2.pmin_timer = st.pmin_timer ∧ st2.pmax_timer = st.pmax_timer) ∨
  (st2.report_scheduled = false ∧ st2.pmin_exceeded = true ∧
    st2.pmin_timer.attached = none ∧ st2.pmax_timer = st.pmax_timer)

/-- Written from the words of the specification, for comparison with the loop of the
code: the value an attribute has after a whole batch.  It is the converted value of
the last pair of the batch that has the key `key` and a value that converts, and the
previously stored value `old` when the batch has no such pair. -/
def last_value (key : String) (q : List QueryOption) (old : sample) : sample :=
  (q.reverse.findSome? (fun o => if o.attr = key then o.value else none)).getD old

/-- The loop of `band` finds the first cell that is at least `s`, counted from the
entry index, and falls through when there is none. -/
theorem band_loop_eq (s : sample) (T : List sample) (k : Nat) :
    band_loop s T k =
      if T.findIdx (fun t => decide (s ≤ t)) < T.length
      then ((k + T.findIdx (fun t => decide (s ≤ t)) : Nat) : Int) else -1 := by
  induction T generalizing k with
  | nil => simp [band_loop]
  | cons l rest ih =>
    by_cases h : s ≤ l
    · simp [band_loop, List.findIdx_cons, h]
    · simp only [band_loop, List.findIdx_cons, h, if_false, decide_False, cond_false, ih (k + 1),
        List.length_cons, Nat.add_lt_add_iff_right]
      split_ifs with h1
      · congr 1; omega
      · rfl

/-- Below or at the last limit the loop of `band` returns an index of the array. -/
theorem band_loop_of_le_getLast (s : sample) (T : List sample) (hne : T ≠ [])
    (h : s ≤ T.getLast hne) :
    T.findIdx (fun t => decide (s ≤ t)) < T.length ∧
    band_loop s T 0 = ((T.findIdx (fun t => decide (s ≤ t)) : Nat) : Int) := by
  have hlt : T.findIdx (fun t => decide (s ≤ t)) < T.length :=
    List.findIdx_lt_length_of_exists ⟨T.getLast hne, List.getLast_mem hne, by simpa using h⟩
  refine ⟨hlt, ?_⟩
  rw [band_loop_eq, if_pos hlt]; simp

/-- In an ascending array every cell is at most the last one. -/
theorem le_getLast_of_sorted (T : List sample) (hne : T ≠ []) (hs : T.Sorted (· ≤ ·))
    (t : sample) (ht : t ∈ T) : t ≤ T.getLast hne := by
  obtain ⟨ys, hys⟩ := List.getLast?_eq_some_iff.mp (List.getLast?_eq_getLast T hne)
  have hs2 : (ys ++ [T.getLast hne]).Sorted (· ≤ ·) := hys ▸ hs
  have ht2 : t ∈ ys ++ [T.getLast hne] := hys ▸ ht
  rcases List.mem_append.mp ht2 with h1 | h1
  · exact (List.pairwise_append.mp hs2).2.2 t h1 _ (List.mem_singleton_self _)
  · exact le_of_eq (List.mem_singleton.mp h1)

/-- For a non-empty ascending array `band` is the index of the first limit that
is at least `s`, the length of the array when there is none. -/
theorem band_eq_findIdx (T : List sample) (s : sample) (hne : T ≠ [])
    (hs : T.Sorted (· ≤ ·)) :
    band T s = ((T.findIdx (fun t => decide (s ≤ t)) : Nat) : Int) := by
  unfold band
  rw [List.getLast?_eq_getLast T hne]
  by_cases h : s > T.getLast hne
  · simp only [h, if_true]
    congr 1
    symm
    apply List.findIdx_eq_length_of_false
    intro t ht
    have := le_getLast_of_sorted T hne hs t ht
    simp only [decide_eq_false_iff_not, not_le]
    exact lt_of_le_of_lt this h
  · simp only [h, if_false]
    exact (band_loop_of_le_getLast s T hne (not_lt.mp h)).2

/-- The state `report_sample` produces, field by field. -/
theorem report_sample_fst (st : State) (s : sample) :
    (report_sample st s).1 =
      { st with
        notify_sample := s
        notification_trigger := true
        last_band := band st.limits s
        high_step := s + st.LWM2M_step
        low_step := s - st.LWM2M_step
        pmin_exceeded := false
        pmin_timer := { attached := some (Handler.on_pmin, st.LWM2M_pmin) }
        pmax_timer := { attached := some (Handler.on_pmax, st.LWM2M_pmax) } } := rfl

/-- The function `report_sample` never writes `report_scheduled`. -/
theorem report_sample_report_scheduled (st : State) (s : sample) :
    (report_sample st s).1.report_scheduled = st.report_scheduled := rfl

/-- The scenario state after activation, field by field. -/
theorem scenario_start_eq :
    scenario_start =
      { initial_state 60 50 5 60 10 with
        current_sample := 55
        LWM2M_observing := true
        limits := [50, 60]
        notify_sample := 55
        notification_trigger := true
        last_band := 1
        high_step := 60
        low_step := 50
        pmin_timer := { attached := some (Handler.on_pmin, 10) }
        pmax_timer := { attached := some (Handler.on_pmax, 60) } } := by
  have hb : band [50, 60] 55 = 1 := by decide
  simp only [scenario_start, LWM2M_start_notification, LWM2M_notification_init,
    report_sample_fst, get_sample, initial_state, hb]
  norm_num

/-- The scenario state with the deferred report: only `report_scheduled` differs
from the state after activation. -/
theorem scenario_pending_eq :
    scenario_pending = { scenario_start with report_scheduled := true } := by
  have hb : band [50, 60] 61 = 2 := by decide
  simp [scenario_pending, on_update, schedule_report, scenario_start_eq, initial_state, hb]

/-- The handler `on_pmin` with a report pending: the flag is cleared and the current
sample is reported. -/
theorem on_pmin_of_scheduled (st : State) (h : st.report_scheduled = true) :
    on_pmin st =
      (report_sample { st with report_scheduled := false, pmin_trigger := true }
        (get_sample st)).1 := by
  simp only [on_pmin, h, if_true, get_sample]

/-- The handler `on_pmin` with no report pending: `pmin_exceeded` is set and the pmin
timer is detached. -/
theorem on_pmin_of_not_scheduled (st : State) (h : st.report_scheduled = false) :
    on_pmin st = { st with pmin_exceeded := true, pmin_timer := { attached := none } } := by
  simp [on_pmin, h, Ticker.detach]

/-- C1: `on_update s` is `schedule_report s` when the band of `s` differs from
`last_band` or `s ≥ high_step` or `s ≤ low_step`, and otherwise leaves the whole
state unchanged; in particular a sample strictly inside `(low_step, high_step)`
whose band is `last_band` changes nothing. -/
theorem on_update_reportable_iff (st : State) (s : sample) :
    ((band st.limits s ≠ st.last_band ∨ s ≥ st.high_step ∨ s ≤ st.low_step) →
      on_update st s = schedule_report st s) ∧
    (¬ (band st.limits s ≠ st.last_band ∨ s ≥ st.high_step ∨ s ≤ st.low_step) →
      on_update st s = st) ∧
    (band st.limits s = st.last_band → st.low_step < s → s < st.high_step →
      on_update st s = st) := by
  refine ⟨fun h => ?_, fun h => ?_, fun hb hl hh => ?_⟩
  · simp only [on_update, if_pos h]
  · simp only [on_update, if_neg h]
  · have h : ¬ (band st.limits s ≠ st.last_band ∨ s ≥ st.high_step ∨ s ≤ st.low_step) := by
      rintro (h | h | h)
      · exact h hb
      · exact absurd hh (not_lt.mpr h)
      · exact absurd hl (not_lt.mpr h)
    simp only [on_update, if_neg h]

/-- In the scenario the sample `61` (band `2`) is handed to `schedule_report`, and
the sample `56` (band `1`, inside the window `(50, 60)`) changes nothing. -/
theorem on_update_reportable_iff_witness :
    on_update scenario_start 61 = schedule_report scenario_start 61 ∧
    on_update scenario_start 56 = scenario_start :=
  ⟨(on_update_reportable_iff scenario_start 61).1
      (Or.inl (by rw [scenario_start_eq]; decide)),
   (on_update_reportable_iff scenario_start 56).2.2
      (by rw [scenario_start_eq]; decide)
      (by rw [scenario_start_eq]; norm_num [initial_state])
      (by rw [scenario_start_eq]; norm_num [initial_state])⟩

/-- C2: with `pmin_exceeded` set, `schedule_report s` produces the state of
`report_sample s`, with `s` in the mailbox; with `pmin_exceeded` clear it sets
`report_scheduled` and changes no other variable and no timer. -/
theorem schedule_report_cases (st : State) (s : sample) :
    (st.pmin_exceeded = true →
      schedule_report st s = (report_sample st s).1 ∧
      (schedule_report st s).notify_sample = s ∧
      (schedule_report st s).notification_trigger = true) ∧
    (st.pmin_exceeded = false →
      schedule_report st s = { st with report_scheduled := true } ∧
      (schedule_report st s).report_scheduled = true ∧
      (schedule_report st s).notify_sample = st.notify_sample ∧
      (schedule_report st s).notification_trigger = st.notification_trigger ∧
      (schedule_report st s).last_band = st.last_band ∧
      (schedule_report st s).high_step = st.high_step ∧
      (schedule_report st s).low_step = st.low_step ∧
      (schedule_report st s).pmin_timer = st.pmin_timer ∧
      (schedule_report st s).pmax_timer = st.pmax_timer) := by
  constructor
  · intro h
    have e : schedule_report st s = (report_sample st s).1 := by
      simp only [schedule_report, h, if_true]
    rw [e, report_sample_fst]
    exact ⟨rfl, rfl, rfl⟩
  · intro h
    have e : schedule_report st s = { st with report_scheduled := true } := by
      simp [schedule_report, h]
    rw [e]
    exact ⟨rfl, rfl, rfl, rfl, rfl, rfl, rfl, rfl, rfl⟩

/-- In the scenario: inside the quiet period the sample `61` only sets
`report_scheduled`; once pmin has expired without a pending report, the sample `61`
is reported at once. -/
theorem schedule_report_cases_witness :
    schedule_report scenario_start 61 = { scenario_start with report_scheduled := true } ∧
    (schedule_report (on_pmin scenario_start) 61).notify_sample = 61 :=
  ⟨((schedule_report_cases scenario_start 61).2
      (by rw [scenario_start_eq]; rfl)).1,
   ((schedule_report_cases (on_pmin scenario_start) 61).1
      (by rw [scenario_start_eq]; rfl)).2.1⟩

/-- C3: when `report_scheduled` is set, `on_pmin` clears it and reports the current
sample: afterwards `pmin_exceeded` and `report_scheduled` are clear, both timers
are attached anew and the mailbox holds `get_sample()`; when it is clear, `on_pmin`
sets `pmin_exceeded`, detaches the pmin timer and changes nothing else. -/
theorem on_pmin_cases (st : State) :
    (st.report_scheduled = true →
      on_pmin st =
        (report_sample { st with report_scheduled := false, pmin_trigger := true }
          (get_sample st)).1 ∧
      (on_pmin st).pmin_exceeded = false ∧
      (on_pmin st).report_scheduled = false ∧
      (on_pmin st).pmin_timer = { attached := some (Handler.on_pmin, st.LWM2M_pmin) } ∧
      (on_pmin st).pmax_timer = { attached := some (Handler.on_pmax, st.LWM2M_pmax) } ∧
      (on_pmin st).notify_sample = st.current_sample ∧
      (on_pmin st).notification_trigger = true) ∧
    (st.report_scheduled = false →
      on_pmin st = { st with pmin_exceeded := true, pmin_timer := { attached := none } } ∧
      (on_pmin st).pmin_exceeded = true ∧
      (on_pmin st).pmin_timer.attached = none ∧
      (on_pmin st).report_scheduled = false ∧
      (on_pmin st).notify_sample = st.notify_sample ∧
      (on_pmin st).notification_trigger = st.notification_trigger ∧
      (on_pmin st).last_band = st.last_band ∧
      (on_pmin st).high_step = st.high_step ∧
      (on_pmin st).low_step = st.low_step ∧
      (on_pmin st).pmax_timer = st.pmax_timer) := by
  constructor
  · intro h
    rw [on_pmin_of_scheduled st h, report_sample_fst]
    exact ⟨rfl, rfl, rfl, rfl, rfl, rfl, rfl⟩
  · intro h
    rw [on_pmin_of_not_scheduled st h]
    exact ⟨rfl, rfl, rfl, h, rfl, rfl, rfl, rfl, rfl, rfl⟩

/-- In the scenario: with the report for `61` pending, the expiry of pmin reports
the current sample `55`, not `61`; with nothing pending it only sets
`pmin_exceeded`. -/
theorem on_pmin_cases_witness :
    scenario_pending.current_sample = 55 ∧
    (on_pmin scenario_pending).notify_sample = scenario_pending.current_sample ∧
    (on_pmin scenario_start).pmin_exceeded = true :=
  ⟨by rw [scenario_pending_eq, scenario_start_eq],
   ((on_pmin_cases scenario_pending).1
      (by rw [scenario_pending_eq])).2.2.2.2.2.1,
   ((on_pmin_cases scenario_start).2
      (by rw [scenario_start_eq]; rfl)).2.1⟩

/-- C4: whatever the flags, `on_pmax` performs `report_sample(get_sample())`: the
mailbox holds the current sample with the trigger set, the band and the step window
are reset to that sample, and both timers are attached anew. -/
theorem on_pmax_reports (st : State) :
    on_pmax st = { (report_sample st (get_sample st)).1 with pmax_exceeded := true } ∧
    (on_pmax st).notify_sample = get_sample st ∧
    (on_pmax st).notification_trigger = true ∧
    (on_pmax st).last_band = band st.limits (get_sample st) ∧
    (on_pmax st).high_step = get_sample st + st.LWM2M_step ∧
    (on_pmax st).low_step = get_sample st - st.LWM2M_step ∧
    (on_pmax st).pmin_timer = { attached := some (Handler.on_pmin, st.LWM2M_pmin) } ∧
    (on_pmax st).pmax_timer = { attached := some (Handler.on_pmax, st.LWM2M_pmax) } ∧
    (on_pmax st).pmin_exceeded = false :=
  ⟨rfl, rfl, rfl, rfl, rfl, rfl, rfl, rfl, rfl⟩

/-- C5: after `report_sample v` the mailbox holds `v` with the trigger set,
`last_band` is the band of `v` under the current limits, the step window is
`[v - step, v + step]`, and the pmin and pmax timers are attached with the current
`pmin` and `pmax`; the function returns `1`. -/
theorem report_sample_effect (st : State) (v : sample) :
    (report_sample st v).1.notify_sample = v ∧
    (report_sample st v).1.notification_trigger = true ∧
    (report_sample st v).1.last_band = band st.limits v ∧
    (report_sample st v).1.high_step = v + st.LWM2M_step ∧
    (report_sample st v).1.low_step = v - st.LWM2M_step ∧
    (report_sample st v).1.pmin_timer =
      (st.pmin_timer.detach).attach Handler.on_pmin st.LWM2M_pmin ∧
    (report_sample st v).1.pmin_timer.attached = some (Handler.on_pmin, st.LWM2M_pmin) ∧
    (report_sample st v).1.pmax_timer =
      (st.pmax_timer.detach).attach Handler.on_pmax st.LWM2M_pmax ∧
    (report_sample st v).1.pmax_timer.attached = some (Handler.on_pmax, st.LWM2M_pmax) ∧
    (report_sample st v).1.limits = st.limits ∧
    (report_sample st v).2 = 1 :=
  ⟨rfl, rfl, rfl, rfl, rfl, rfl, rfl, rfl, rfl, rfl, rfl⟩

/-- Inside the quiet period `on_update` can only set `report_scheduled`. -/
theorem on_update_quiet (st : State) (s : sample) (hq : st.pmin_exceeded = false) :
    on_update st s = { st with report_scheduled := st.report_scheduled || reportable st s } := by
  by_cases h : band st.limits s ≠ st.last_band ∨ s ≥ st.high_step ∨ s ≤ st.low_step
  · have hr : reportable st s = true := by simp only [reportable, h, decide_True]
    simp [on_update, schedule_report, h, hq, hr]
  · have hr : reportable st s = false := by simp only [reportable, h, decide_False]
    simp [on_update, h, hr]

/-- A sequence of `on_update` calls inside the quiet period writes neither the
mailbox nor a timer nor the baseline: the state afterwards is the state before,
with `report_scheduled` set when it was set or one of the samples was reportable. -/
theorem updates_quiet (st : State) (ss : List sample) (hq : st.pmin_exceeded = false) :
    updates st ss =
      { st with report_scheduled := st.report_scheduled || ss.any (reportable st) } := by
  induction ss generalizing st with
  | nil => simp [updates]
  | cons s rest ih =>
    have hstep := on_update_quiet st s hq
    have e : updates st (s :: rest) = updates (on_update st s) rest := rfl
    have hr : reportable (on_update st s) = reportable st := by
      funext x; rw [hstep]; rfl
    have hq2 : (on_update st s).pmin_exceeded = false := by rw [hstep]; exact hq
    rw [e, ih (on_update st s) hq2, hr, hstep]
    simp [Bool.or_assoc]

/-- The quiet-period law from a report made with no deferred report pending: the
`on_update` calls before the expiry of pmin change `report_scheduled` only; at the
expiry one `report_sample` of the current sample is made if one of the samples was
reportable against the baseline, and if none was the scheduler only sets
`pmin_exceeded` and detaches the pmin timer. -/
theorem quiet_period_law (st0 : State) (v : sample) (ss : List sample)
    (h0 : st0.report_scheduled = false) :
    updates (report_sample st0 v).1 ss =
      { (report_sample st0 v).1 with
        report_scheduled := ss.any (reportable (report_sample st0 v).1) } ∧
    (ss.any (reportable (report_sample st0 v).1) = true →
      on_pmin (updates (report_sample st0 v).1 ss) =
        (report_sample { (report_sample st0 v).1 with pmin_trigger := true }
          (get_sample (report_sample st0 v).1)).1) ∧
    (ss.any (reportable (report_sample st0 v).1) = false →
      on_pmin (updates (report_sample st0 v).1 ss) =
        { (report_sample st0 v).1 with
          pmin_exceeded := true, pmin_timer := { attached := none } }) := by
  have hu := updates_quiet (report_sample st0 v).1 ss rfl
  have hrs : (report_sample st0 v).1.report_scheduled = false := by
    rw [report_sample_report_scheduled]; exact h0
  rw [hrs, Bool.false_or] at hu
  refine ⟨hu, fun h => ?_, fun h => ?_⟩
  · rw [hu, h]
    rw [on_pmin_of_scheduled { (report_sample st0 v).1 with report_scheduled := true } rfl]
    simp only [get_sample]
    congr 1
    simp only [report_sample_fst] at hrs ⊢
    simp only [← hrs]
  · rw [hu, h]
    rw [on_pmin_of_not_scheduled { (report_sample st0 v).1 with report_scheduled := false } rfl]
    simp only [report_sample_fst] at hrs ⊢
    simp only [← hrs]

/-- The quiet-period law in the scenario: after activation the samples `56, 61, 57`
schedule one report, made at the expiry of pmin. -/
theorem quiet_period_law_witness :
    updates scenario_start [56, 61, 57] = { scenario_start with report_scheduled := true } := by
  have h := (quiet_period_law { initial_state 60 50 5 60 10 with
      current_sample := 55, LWM2M_observing := true, limits := [50, 60] } 55 [56, 61, 57] rfl).1
  have e : (report_sample { initial_state 60 50 5 60 10 with
      current_sample := 55, LWM2M_observing := true, limits := [50, 60] } 55).1
      = scenario_start := rfl
  rw [e] at h
  rw [h]
  have hb1 : band [50, 60] 61 = 2 := by decide
  simp [reportable, scenario_start_eq, initial_state, hb1]

/-- C6 on the code: `report_sample` leaves a pending `report_scheduled` set.  In the
scenario a report is deferred (`report_scheduled = true`); a `report_sample`, the
pmax handler and a re-initialisation each report the current sample and leave
`report_scheduled = true`, with `pmin_exceeded = false`. -/
theorem report_sample_keeps_pending_flag :
    scenario_pending.report_scheduled = true ∧
    (report_sample scenario_pending 55).1.report_scheduled = true ∧
    (report_sample scenario_pending 55).1.pmin_exceeded = false ∧
    (on_pmax scenario_pending).report_scheduled = true ∧
    (LWM2M_notification_init scenario_pending).report_scheduled = true := by
  have h : scenario_pending.report_scheduled = true := by rw [scenario_pending_eq]
  exact ⟨h, h, rfl, h, h⟩

/-- C7 on the code: in the state right after a `report_sample` made while a deferred
report was pending (here by re-initialisation), the sample `56` is not reportable and `on_update 56` changes
nothing, yet the following `on_pmin` performs a `report_sample`: the mailbox is
written, both timers are attached anew and `pmin_exceeded` stays clear. -/
theorem quiet_period_stale_report :
    LWM2M_notification_init scenario_pending = scenario_rereported ∧
    reportable scenario_rereported 56 = false ∧
    updates scenario_rereported [56] = scenario_rereported ∧
    on_pmin (updates scenario_rereported [56]) =
      (report_sample { scenario_rereported with report_scheduled := false, pmin_trigger := true }
        (get_sample scenario_rereported)).1 ∧
    (on_pmin (updates scenario_rereported [56])).pmin_exceeded = false ∧
    (on_pmin (updates scenario_rereported [56])).pmin_timer.attached =
      some (Handler.on_pmin, 10) ∧
    on_pmin (updates scenario_rereported []) =
      (report_sample { scenario_rereported with report_scheduled := false, pmin_trigger := true }
        (get_sample scenario_rereported)).1 := by
  have hs : scenario_rereported.report_scheduled = true := by
    simp only [scenario_rereported, report_sample_report_scheduled, scenario_pending_eq]
  have hb : band [50, 60] 56 = 1 := by decide
  have hb2 : band [50, 60] 55 = 1 := by decide
  have hr : reportable scenario_rereported 56 = false := by
    simp [reportable, scenario_rereported, report_sample_fst, scenario_pending_eq,
      scenario_start_eq, initial_state, hb, hb2]
    norm_num
  have hu : updates scenario_rereported [56] = scenario_rereported := by
    rw [updates_quiet scenario_rereported [56] rfl]
    simp [hr, hs]
    simp only [← hs]
  have hp := on_pmin_of_scheduled scenario_rereported hs
  have hi : LWM2M_notification_init scenario_pending = scenario_rereported := by
    simp [LWM2M_notification_init, scenario_rereported, get_sample, report_sample_fst,
      scenario_pending_eq, scenario_start_eq, initial_state]
  refine ⟨hi, hr, hu, ?_, ?_, ?_, ?_⟩
  · rw [hu]; exact hp
  · rw [hu, hp]; rfl
  · rw [hu, hp, report_sample_fst]
    simp [scenario_rereported, report_sample_fst, scenario_pending_eq, scenario_start_eq,
      initial_state]
  · exact hp

/-- C8: for a non-empty ascending limit array, `band` is the index of the first
limit with `s ≤ limits[i]` and the number of limits when `s` exceeds them all; for
the pair `[lt, gt]` it is `0` iff `s ≤ lt`, `1` iff `lt < s ≤ gt`, `2` iff `s > gt`. -/
theorem band_first_threshold (T : List sample) (s : sample) (hne : T ≠ [])
    (hs : T.Sorted (· ≤ ·)) :
    band T s = ((T.findIdx (fun t => decide (s ≤ t)) : Nat) : Int) ∧
    (∀ (i : Nat) (t : sample), T[i]? = some t → s ≤ t →
      (∀ (j : Nat) (u : sample), j < i → T[j]? = some u → u < s) → band T s = (i : Int)) ∧
    ((∀ t ∈ T, t < s) → band T s = (T.length : Int)) ∧
    (∀ lt gt : sample, T = [lt, gt] →
      (band T s = 0 ↔ s ≤ lt) ∧ (band T s = 1 ↔ lt < s ∧ s ≤ gt) ∧ (band T s = 2 ↔ gt < s)) := by
  have hb := band_eq_findIdx T s hne hs
  refine ⟨hb, ?_, ?_, ?_⟩
  · intro i t hi hst hbelow
    obtain ⟨hlen, hget⟩ := List.getElem?_eq_some_iff.mp hi
    rw [hb]
    congr 1
    rw [List.findIdx_eq hlen]
    refine ⟨by simpa [hget] using hst, ?_⟩
    intro j hji
    have hu := hbelow j (T[j]) hji (List.getElem?_eq_getElem (lt_trans hji hlen))
    simpa using hu
  · intro hall
    rw [hb]
    congr 1
    apply List.findIdx_eq_length_of_false
    intro t ht
    simpa using hall t ht
  · intro lt gt hT
    subst hT
    have hle : lt ≤ gt := by simpa using hs
    by_cases h1 : s ≤ lt
    · have h2 : s ≤ gt := le_trans h1 hle
      have h3 : ¬ gt < s := not_lt.mpr h2
      have h4 : ¬ lt < s := not_lt.mpr h1
      simp [band, band_loop, h1, h3, h4]
    · have h4 : lt < s := not_le.mp h1
      by_cases h2 : s ≤ gt
      · have h3 : ¬ gt < s := not_lt.mpr h2
        simp [band, band_loop, h1, h2, h3, h4]
      · have h3 : gt < s := not_le.mp h2
        simp [band, band_loop, h1, h2, h3, h4]

/-- The limit pair of the scenario `lt = 50`, `gt = 60` and the sample `55`: the
array is ascending and `55` lies in band `1`. -/
theorem band_first_threshold_witness :
    ([50, 60] : List sample) ≠ [] ∧ ([50, 60] : List sample).Sorted (· ≤ ·) ∧
    band [50, 60] 55 = 1 :=
  ⟨by simp, by norm_num [List.Sorted], by
    have h := (band_first_threshold [50, 60] 55 (by simp) (by norm_num [List.Sorted])).2.2.2 50 60 rfl
    exact h.2.1.mpr ⟨by norm_num, by norm_num⟩⟩

/-- C9: for a non-empty limit array (ascending or not) and every sample, `band` lies
in `[0, limits.length]`; the fall-through value `-1` is never returned. -/
theorem band_range (T : List sample) (s : sample) (hne : T ≠ []) :
    0 ≤ band T s ∧ band T s ≤ (T.length : Int) ∧ band T s ≠ -1 := by
  have key : ∃ n : Nat, n ≤ T.length ∧ band T s = (n : Int) := by
    unfold band
    rw [List.getLast?_eq_getLast T hne]
    by_cases h : s > T.getLast hne
    · exact ⟨T.length, le_refl _, by simp [h]⟩
    · obtain ⟨hlt, heq⟩ := band_loop_of_le_getLast s T hne (not_lt.mp h)
      exact ⟨_, le_of_lt hlt, by simp only [h, if_false]; exact heq⟩
  obtain ⟨n, hn, hb⟩ := key
  rw [hb]
  refine ⟨Int.ofNat_nonneg n, by exact_mod_cast hn, ?_⟩
  have : (0 : Int) ≤ (n : Int) := Int.ofNat_nonneg n
  omega

/-- The limit pair `[50, 60]` is a non-empty array, and the band of `61` is within
`[0, 2]`. -/
theorem band_range_witness :
    ([50, 60] : List sample) ≠ [] ∧
    0 ≤ band [50, 60] 61 ∧ band [50, 60] 61 ≤ (([50, 60] : List sample).length : Int) ∧
    band [50, 60] 61 ≠ -1 :=
  ⟨by simp, band_range [50, 60] 61 (by simp)⟩

/-- C10: for a non-empty limit array and samples `s1 ≤ s2`, `band s1 ≤ band s2`. -/
theorem band_monotone (T : List sample) (s1 s2 : sample) (hne : T ≠ [])
    (hs : T.Sorted (· ≤ ·)) (h12 : s1 ≤ s2) : band T s1 ≤ band T s2 := by
  rw [band_eq_findIdx T s1 hne hs, band_eq_findIdx T s2 hne hs]
  have : T.findIdx (fun t => decide (s1 ≤ t)) ≤ T.findIdx (fun t => decide (s2 ≤ t)) := by
    apply List.findIdx_le_findIdx
    intro t _ ht
    have h2 : s2 ≤ t := by simpa using ht
    simpa using le_trans h12 h2
  exact_mod_cast this

/-- The samples `55 ≤ 61` over the ascending pair `[50, 60]`. -/
theorem band_monotone_witness :
    ([50, 60] : List sample) ≠ [] ∧ ([50, 60] : List sample).Sorted (· ≤ ·) ∧
    (55 : sample) ≤ 61 ∧ band [50, 60] 55 ≤ band [50, 60] 61 :=
  ⟨by simp, by norm_num [List.Sorted], by norm_num,
    band_monotone [50, 60] 55 61 (by simp) (by norm_num [List.Sorted]) (by norm_num)⟩

/-- An option whose name is none of the six compared names changes nothing. -/
theorem set_notification_attribute_unrecognised (st : State) (o : QueryOption)
    (h : recognised o.attr = false) : set_notification_attribute st o = st := by
  simp only [recognised, decide_eq_false_iff_not, not_or] at h
  obtain ⟨h1, h2, h3, h4, h5, h6⟩ := h
  simp only [set_notification_attribute, h1, h2, h3, h4, h5, h6, if_false]

/-- The flag `attribute_update` after one option: set when the name is one of the six
compared names, kept otherwise. -/
theorem set_notification_attribute_flag (st : State) (o : QueryOption) :
    (set_notification_attribute st o).attribute_update =
      (st.attribute_update || recognised o.attr) := by
  by_cases h : recognised o.attr = true
  · have h' := h
    simp only [recognised, decide_eq_true_eq] at h'
    rw [h, Bool.or_true]
    unfold set_notification_attribute
    split_ifs with h1 h2 h3 h4 h5 h6
    all_goals first | rfl | (exfalso; tauto)
  · have h0 : recognised o.attr = false := by simpa using h
    rw [set_notification_attribute_unrecognised st o h0, h0, Bool.or_false]

/-- The flag `attribute_update` after the loop over the options. -/
theorem set_notification_attributes_flag (st : State) (q : List QueryOption) :
    (set_notification_attributes st q).attribute_update =
      (st.attribute_update || q.any (fun o => recognised o.attr)) := by
  induction q generalizing st with
  | nil => simp [set_notification_attributes]
  | cons o rest ih =>
    have e : set_notification_attributes st (o :: rest) =
        set_notification_attributes (set_notification_attribute st o) rest := rfl
    rw [e, ih, set_notification_attribute_flag]
    simp [Bool.or_assoc]

/-- The variables one option never writes: the samples, the mailbox, the scheduler
state, the timers and the observation number. -/
theorem set_notification_attribute_frame (st : State) (o : QueryOption) :
    (set_notification_attribute st o).current_sample = st.current_sample ∧
    (set_notification_attribute st o).last_sample = st.last_sample ∧
    (set_notification_attribute st o).notify_sample = st.notify_sample ∧
    (set_notification_attribute st o).notification_trigger = st.notification_trigger ∧
    (set_notification_attribute st o).limits = st.limits ∧
    (set_notification_attribute st o).last_band = st.last_band ∧
    (set_notification_attribute st o).high_step = st.high_step ∧
    (set_notification_attribute st o).low_step = st.low_step ∧
    (set_notification_attribute st o).pmin_exceeded = st.pmin_exceeded ∧
    (set_notification_attribute st o).report_scheduled = st.report_scheduled ∧
    (set_notification_attribute st o).pmin_timer = st.pmin_timer ∧
    (set_notification_attribute st o).pmax_timer = st.pmax_timer ∧
    (set_notification_attribute st o).LWM2M_obs_number = st.LWM2M_obs_number := by
  unfold set_notification_attribute LWM2M_stop_notification
  split_ifs <;> exact ⟨rfl, rfl, rfl, rfl, rfl, rfl, rfl, rfl, rfl, rfl, rfl, rfl, rfl⟩

/-- The variables the loop over the options never writes. -/
theorem set_notification_attributes_frame (st : State) (q : List QueryOption) :
    (set_notification_attributes st q).current_sample = st.current_sample ∧
    (set_notification_attributes st q).last_sample = st.last_sample ∧
    (set_notification_attributes st q).notify_sample = st.notify_sample ∧
    (set_notification_attributes st q).notification_trigger = st.notification_trigger ∧
    (set_notification_attributes st q).limits = st.limits ∧
    (set_notification_attributes st q).last_band = st.last_band ∧
    (set_notification_attributes st q).high_step = st.high_step ∧
    (set_notification_attributes st q).low_step = st.low_step ∧
    (set_notification_attributes st q).pmin_exceeded = st.pmin_exceeded ∧
    (set_notification_attributes st q).report_scheduled = st.report_scheduled ∧
    (set_notification_attributes st q).pmin_timer = st.pmin_timer ∧
    (set_notification_attributes st q).pmax_timer = st.pmax_timer ∧
    (set_notification_attributes st q).LWM2M_obs_number = st.LWM2M_obs_number := by
  induction q generalizing st with
  | nil => exact ⟨rfl, rfl, rfl, rfl, rfl, rfl, rfl, rfl, rfl, rfl, rfl, rfl, rfl⟩
  | cons o rest ih =>
    have e : set_notification_attributes st (o :: rest) =
        set_notification_attributes (set_notification_attribute st o) rest := rfl
    obtain ⟨a1, a2, a3, a4, a5, a6, a7, a8, a9, a10, a11, a12, a13⟩ :=
      set_notification_attribute_frame st o
    obtain ⟨b1, b2, b3, b4, b5, b6, b7, b8, b9, b10, b11, b12, b13⟩ :=
      ih (set_notification_attribute st o)
    rw [e]
    exact ⟨b1.trans a1, b2.trans a2, b3.trans a3, b4.trans a4, b5.trans a5, b6.trans a6,
      b7.trans a7, b8.trans a8, b9.trans a9, b10.trans a10, b11.trans a11, b12.trans a12,
      b13.trans a13⟩

/-- One option never switches the observation on. -/
theorem set_notification_attribute_observing (st : State) (o : QueryOption) :
    (set_notification_attribute st o).LWM2M_observing =
      (st.LWM2M_observing && !decide (o.attr = "cancel")) := by
  unfold set_notification_attribute LWM2M_stop_notification
  split_ifs with h1 h2 h3 h4 h5 h6
  all_goals first
    | (have hc : o.attr ≠ "cancel" := by simp [*]
       simp [hc])
    | simp [*]

/-- The observing flag after the loop over the options: cleared when one of them is
`cancel`, kept otherwise. -/
theorem set_notification_attributes_observing (st : State) (q : List QueryOption) :
    (set_notification_attributes st q).LWM2M_observing =
      (st.LWM2M_observing && !q.any (fun o => decide (o.attr = "cancel"))) := by
  induction q generalizing st with
  | nil => simp [set_notification_attributes]
  | cons o rest ih =>
    have e : set_notification_attributes st (o :: rest) =
        set_notification_attributes (set_notification_attribute st o) rest := rfl
    rw [e, ih, set_notification_attribute_observing]
    simp [Bool.and_assoc]

/-- Re-initialisation does not write the observing flag, the observation number or
`report_scheduled`. -/
theorem LWM2M_notification_init_frame (st : State) :
    (LWM2M_notification_init st).LWM2M_observing = st.LWM2M_observing ∧
    (LWM2M_notification_init st).LWM2M_obs_number = st.LWM2M_obs_number ∧
    (LWM2M_notification_init st).report_scheduled = st.report_scheduled :=
  ⟨rfl, rfl, rfl⟩

/-- Right after a report of `v` whose computed step window strictly contains `v`, the
sample `v` itself is not reportable: `on_update v` changes nothing.  Only the stored
window is compared; how `v + step` and `v - step` were computed plays no part. -/
theorem on_update_after_report (st : State) (v : sample)
    (hw : (report_sample st v).1.low_step < v ∧ v < (report_sample st v).1.high_step) :
    on_update (report_sample st v).1 v = (report_sample st v).1 := by
  have h : ¬ (band (report_sample st v).1.limits v ≠ (report_sample st v).1.last_band ∨
      v ≥ (report_sample st v).1.high_step ∨ v ≤ (report_sample st v).1.low_step) := by
    rintro (h | h | h)
    · exact h rfl
    · exact absurd hw.2 (not_lt.mpr h)
    · exact absurd hw.1 (not_lt.mpr h)
  simp only [on_update, if_neg h]

/-- Right after a report of `v`, whatever values `lo` and `hi` the computation of
`v - step` and `v + step` has stored as the step window, if they strictly enclose `v`
then `on_update v` changes nothing. -/
theorem on_update_after_report_any_window (st : State) (v lo hi : sample)
    (h1 : lo < v) (h2 : v < hi) :
    on_update { (report_sample st v).1 with low_step := lo, high_step := hi } v =
      { (report_sample st v).1 with low_step := lo, high_step := hi } := by
  have h : ¬ (band ({ (report_sample st v).1 with low_step := lo, high_step := hi } :
        State).limits v ≠
        ({ (report_sample st v).1 with low_step := lo, high_step := hi } : State).last_band ∨
      v ≥ ({ (report_sample st v).1 with low_step := lo, high_step := hi } : State).high_step ∨
      v ≤ ({ (report_sample st v).1 with low_step := lo, high_step := hi } : State).low_step) := by
    rintro (h | h | h)
    · exact h rfl
    · exact absurd h2 (not_lt.mpr h)
    · exact absurd h1 (not_lt.mpr h)
  simp only [on_update, if_neg h]

/-- Inside the quiet period `on_update s` applied twice is `on_update s` applied once,
for every sample. -/
theorem on_update_twice_quiet (st : State) (s : sample) (hq : st.pmin_exceeded = false) :
    on_update (on_update st s) s = on_update st s := by
  have h1 := on_update_quiet st s hq
  have hq2 : (on_update st s).pmin_exceeded = false := by rw [h1]; exact hq
  have hr : reportable (on_update st s) s = reportable st s := by rw [h1]; rfl
  rw [on_update_quiet (on_update st s) s hq2, hr, h1]
  simp

/-- C11, on the code at `step = 0`: in the scenario with `step = 0` and pmin expired,
`on_update 61` reports `61`, and a second `on_update 61` schedules a further report,
because `61 ≥ high_step = 61`; so applying `on_update 61` twice is not the same as
applying it once, and `on_update v` right after a report of `v` schedules a report. -/
theorem on_update_twice_zero_step :
    0 ≤ scenario_zero_step.LWM2M_step ∧
    (on_update scenario_zero_step 61).report_scheduled = false ∧
    (on_update (on_update scenario_zero_step 61) 61).report_scheduled = true ∧
    on_update (on_update scenario_zero_step 61) 61 ≠ on_update scenario_zero_step 61 ∧
    on_update scenario_zero_step 61 = (report_sample scenario_zero_step 61).1 ∧
    on_update (report_sample scenario_zero_step 61).1 61 ≠
      (report_sample scenario_zero_step 61).1 := by
  have hb55 : band [50, 60] 55 = 1 := by decide
  have hb61 : band [50, 60] 61 = 2 := by decide
  have e0 : scenario_zero_step =
      { initial_state 60 50 0 60 10 with
        current_sample := 55
        LWM2M_observing := true
        limits := [50, 60]
        notify_sample := 55
        notification_trigger := true
        last_band := 1
        high_step := 55
        low_step := 55
        pmin_exceeded := true
        pmin_timer := { attached := none }
        pmax_timer := { attached := some (Handler.on_pmax, 60) } } := by
    simp only [scenario_zero_step, LWM2M_start_notification, LWM2M_notification_init,
      report_sample_fst, get_sample, initial_state, hb55]
    rw [on_pmin_of_not_scheduled _ rfl]
    norm_num
  have e1 : on_update scenario_zero_step 61 = (report_sample scenario_zero_step 61).1 := by
    have hc : band scenario_zero_step.limits 61 ≠ scenario_zero_step.last_band ∨
        (61 : sample) ≥ scenario_zero_step.high_step ∨
        (61 : sample) ≤ scenario_zero_step.low_step := by
      right; left; rw [e0]; norm_num [initial_state]
    have hp : scenario_zero_step.pmin_exceeded = true := by rw [e0]
    simp only [on_update, if_pos hc, schedule_report, hp, if_true]
  have hs1 : (on_update scenario_zero_step 61).report_scheduled = false := by
    rw [e1, report_sample_report_scheduled, e0]; rfl
  have hs2 : (on_update (on_update scenario_zero_step 61) 61).report_scheduled = true := by
    have hq : (on_update scenario_zero_step 61).pmin_exceeded = false := by rw [e1]; rfl
    have hr : reportable (on_update scenario_zero_step 61) 61 = true := by
      rw [e1]
      simp only [reportable, report_sample_fst, decide_eq_true_eq]
      right; left
      rw [e0]; norm_num [initial_state]
    rw [on_update_quiet _ _ hq, hr, Bool.or_true]
  have hne : on_update (on_update scenario_zero_step 61) 61 ≠ on_update scenario_zero_step 61 := by
    intro h
    rw [h, hs1] at hs2
    exact Bool.false_ne_true hs2
  refine ⟨by rw [e0]; norm_num [initial_state], hs1, hs2, hne, e1, ?_⟩
  rw [← e1]
  exact hne

/-- C11, amended to a step window that strictly contains the reported value: for
every state and sample `s` such that the window `report_sample s` computes has
`low_step < s < high_step`, `on_update s` applied twice gives the state of applying
it once, and right after a report of `v` with such a window the call `on_update v`
changes nothing (no report, none scheduled), whatever the two stored window values
are as long as they strictly enclose `v`; inside the quiet period twice is once for
every sample. -/
theorem on_update_idempotent (st : State) (s : sample)
    (hw : (report_sample st s).1.low_step < s ∧ s < (report_sample st s).1.high_step) :
    on_update (on_update st s) s = on_update st s ∧
    (∀ (st2 : State) (v : sample),
      (report_sample st2 v).1.low_step < v → v < (report_sample st2 v).1.high_step →
      on_update (report_sample st2 v).1 v = (report_sample st2 v).1) ∧
    (∀ (st2 : State) (v lo hi : sample), lo < v → v < hi →
      on_update { (report_sample st2 v).1 with low_step := lo, high_step := hi } v =
        { (report_sample st2 v).1 with low_step := lo, high_step := hi }) ∧
    (∀ (st2 : State) (v : sample), st2.pmin_exceeded = false →
      on_update (on_update st2 v) v = on_update st2 v) := by
  refine ⟨?_, fun st2 v h1 h2 => on_update_after_report st2 v ⟨h1, h2⟩,
    fun st2 v lo hi h1 h2 => on_update_after_report_any_window st2 v lo hi h1 h2,
    fun st2 v hq => on_update_twice_quiet st2 v hq⟩
  by_cases hp : st.pmin_exceeded = true
  · by_cases h : band st.limits s ≠ st.last_band ∨ s ≥ st.high_step ∨ s ≤ st.low_step
    · have e : on_update st s = (report_sample st s).1 := by
        simp only [on_update, if_pos h, schedule_report, hp, if_true]
      rw [e]
      exact on_update_after_report st s hw
    · have e : on_update st s = st := by simp only [on_update, if_neg h]
      rw [e, e]
  · exact on_update_twice_quiet st s (by simpa using hp)

/-- In the scenario (`step = 5`) with pmin expired: the report of `61` computes the
window `[56, 66]`, which strictly contains `61`, and `on_update 61` twice is
`on_update 61` once. -/
theorem on_update_idempotent_witness :
    ((report_sample (on_pmin scenario_start) 61).1.low_step < 61 ∧
      61 < (report_sample (on_pmin scenario_start) 61).1.high_step) ∧
    on_update (on_update (on_pmin scenario_start) 61) 61 =
      on_update (on_pmin scenario_start) 61 := by
  have hp : on_pmin scenario_start =
      { scenario_start with pmin_exceeded := true, pmin_timer := { attached := none } } :=
    on_pmin_of_not_scheduled _ (by rw [scenario_start_eq]; rfl)
  have hl : (report_sample (on_pmin scenario_start) 61).1.low_step = 56 := by
    rw [hp, scenario_start_eq]; norm_num [report_sample_fst, initial_state]
  have hh : (report_sample (on_pmin scenario_start) 61).1.high_step = 66 := by
    rw [hp, scenario_start_eq]; norm_num [report_sample_fst, initial_state]
  have hw : (report_sample (on_pmin scenario_start) 61).1.low_step < 61 ∧
      61 < (report_sample (on_pmin scenario_start) 61).1.high_step :=
    ⟨by rw [hl]; norm_num, by rw [hh]; norm_num⟩
  exact ⟨hw, (on_update_idempotent (on_pmin scenario_start) 61 hw).1⟩

/-- With the session not observing, one pass of the thread loop only stores the
reading and hands nothing to the transport. -/
theorem thread_not_observing (st : State) (reading : sample) (send_result : Nat)
    (h : st.LWM2M_observing = false) :
    LWM2M_notification_thread_sample st reading = { st with current_sample := reading * 100 } ∧
    LWM2M_notification_thread st reading send_result =
      ({ st with current_sample := reading * 100 }, none) := by
  have e : LWM2M_notification_thread_sample st reading =
      { st with current_sample := reading * 100 } := by
    simp [LWM2M_notification_thread_sample, h]
  refine ⟨e, ?_⟩
  simp [LWM2M_notification_thread, e, LWM2M_notification_thread_dispatch, h]

/-- With the trigger set and the session observing, the dispatch half of the thread
loop hands the mailbox value to the transport with the incremented observation
number. -/
theorem dispatch_sends (st : State) (send_result : Nat)
    (ht : st.notification_trigger = true) (ho : st.LWM2M_observing = true) :
    (LWM2M_notification_thread_dispatch st send_result).2 =
      some { payload := st.notify_sample, obs_number := (st.LWM2M_obs_number + 1) % 256 } := by
  unfold LWM2M_notification_thread_dispatch
  rw [if_pos ⟨ht, ho⟩]
  by_cases h1 : st.pmax_exceeded = true <;> by_cases h2 : st.pmin_trigger = true <;>
    by_cases h3 : send_result = 0 <;> simp [h1, h2, h3]

/-- Inside the quiet period the sampling half of the thread loop writes neither the
mailbox nor the session variables. -/
theorem thread_sample_quiet (st : State) (reading : sample) (hq : st.pmin_exceeded = false) :
    (LWM2M_notification_thread_sample st reading).notify_sample = st.notify_sample ∧
    (LWM2M_notification_thread_sample st reading).notification_trigger =
      st.notification_trigger ∧
    (LWM2M_notification_thread_sample st reading).LWM2M_observing = st.LWM2M_observing ∧
    (LWM2M_notification_thread_sample st reading).LWM2M_obs_number = st.LWM2M_obs_number := by
  unfold LWM2M_notification_thread_sample
  simp only []
  split_ifs with h
  · rw [on_update_quiet _ _ (by exact hq)]
    exact ⟨rfl, rfl, rfl, rfl⟩
  · exact ⟨rfl, rfl, rfl, rfl⟩

/-- C12, on the code: `on_update` has no test of `LWM2M_observing`.  In the scenario
with the observation stopped, `on_update 61` schedules a report, and once pmin has
expired `on_update 61` writes the mailbox. -/
theorem on_update_not_observing :
    (LWM2M_stop_notification scenario_start).LWM2M_observing = false ∧
    (LWM2M_stop_notification scenario_start).report_scheduled = false ∧
    (on_update (LWM2M_stop_notification scenario_start) 61).report_scheduled = true ∧
    (LWM2M_stop_notification (on_pmin scenario_start)).LWM2M_observing = false ∧
    (LWM2M_stop_notification (on_pmin scenario_start)).notify_sample = 55 ∧
    (on_update (LWM2M_stop_notification (on_pmin scenario_start)) 61).notify_sample = 61 := by
  have hb : band [50, 60] 61 = 2 := by decide
  have hp : on_pmin scenario_start =
      { scenario_start with pmin_exceeded := true, pmin_timer := { attached := none } } :=
    on_pmin_of_not_scheduled _ (by rw [scenario_start_eq]; rfl)
  refine ⟨rfl, by rw [scenario_start_eq]; rfl, ?_, rfl, by rw [hp, scenario_start_eq]; rfl, ?_⟩
  · simp [on_update, schedule_report, LWM2M_stop_notification, scenario_start_eq,
      initial_state, hb]
  · rw [hp]
    simp [on_update, schedule_report, LWM2M_stop_notification, scenario_start_eq,
      initial_state, hb, report_sample_fst]

/-- C12, amended to the sampling loop: when `LWM2M_observing = false`, one pass of
the thread loop does not call `on_update`; it stores the reading in `current_sample`
and leaves `report_scheduled`, `pmin_exceeded`, the baseline, the timers and the
mailbox unchanged, and hands nothing to the transport. -/
theorem thread_inactive_no_update (st : State) (reading : sample) (send_result : Nat)
    (h : st.LWM2M_observing = false) :
    LWM2M_notification_thread st reading send_result =
      ({ st with current_sample := reading * 100 }, none) ∧
    (LWM2M_notification_thread st reading send_result).1.report_scheduled =
      st.report_scheduled ∧
    (LWM2M_notification_thread st reading send_result).1.pmin_exceeded = st.pmin_exceeded ∧
    (LWM2M_notification_thread st reading send_result).1.last_band = st.last_band ∧
    (LWM2M_notification_thread st reading send_result).1.high_step = st.high_step ∧
    (LWM2M_notification_thread st reading send_result).1.low_step = st.low_step ∧
    (LWM2M_notification_thread st reading send_result).1.pmin_timer = st.pmin_timer ∧
    (LWM2M_notification_thread st reading send_result).1.pmax_timer = st.pmax_timer ∧
    (LWM2M_notification_thread st reading send_result).1.notify_sample = st.notify_sample ∧
    (LWM2M_notification_thread st reading send_result).1.notification_trigger =
      st.notification_trigger := by
  have e := (thread_not_observing st reading send_result h).2
  rw [e]
  exact ⟨rfl, rfl, rfl, rfl, rfl, rfl, rfl, rfl, rfl, rfl⟩

/-- In the scenario with the observation stopped, a pass of the thread loop with the
reading `0.61` (the sample `61`) schedules nothing. -/
theorem thread_inactive_no_update_witness :
    (LWM2M_stop_notification scenario_start).LWM2M_observing = false ∧
    (LWM2M_notification_thread (LWM2M_stop_notification scenario_start) (61 / 100) 1).1.report_scheduled
      = (LWM2M_stop_notification scenario_start).report_scheduled :=
  ⟨rfl, (thread_inactive_no_update (LWM2M_stop_notification scenario_start) (61 / 100) 1 rfl).2.1⟩

/-- C13: for every prior state, `LWM2M_start_notification` leaves the session
observing, the limits `[lt, gt]` of the current attributes, the current sample in the
mailbox with the trigger set, the band and step window of that sample, `pmin_exceeded`
clear and both timers attached; the next dispatch, also after the sampling half of
the same pass, hands that sample to the transport. -/
theorem start_notification_reports (st : State) :
    (LWM2M_start_notification st).LWM2M_observing = true ∧
    (LWM2M_start_notification st).limits = [st.LWM2M_lt, st.LWM2M_gt] ∧
    LWM2M_start_notification st =
      (report_sample { st with LWM2M_observing := true, limits := [st.LWM2M_lt, st.LWM2M_gt] }
        (get_sample st)).1 ∧
    (LWM2M_start_notification st).notify_sample = st.current_sample ∧
    (LWM2M_start_notification st).notification_trigger = true ∧
    (LWM2M_start_notification st).last_band =
      band [st.LWM2M_lt, st.LWM2M_gt] st.current_sample ∧
    (LWM2M_start_notification st).high_step = st.current_sample + st.LWM2M_step ∧
    (LWM2M_start_notification st).low_step = st.current_sample - st.LWM2M_step ∧
    (LWM2M_start_notification st).pmin_exceeded = false ∧
    (LWM2M_start_notification st).pmin_timer.attached =
      some (Handler.on_pmin, st.LWM2M_pmin) ∧
    (LWM2M_start_notification st).pmax_timer.attached =
      some (Handler.on_pmax, st.LWM2M_pmax) ∧
    (∀ send_result : Nat,
      (LWM2M_notification_thread_dispatch (LWM2M_start_notification st) send_result).2 =
        some { payload := st.current_sample,
               obs_number := (st.LWM2M_obs_number + 1) % 256 }) ∧
    (∀ (reading : sample) (send_result : Nat),
      (LWM2M_notification_thread (LWM2M_start_notification st) reading send_result).2 =
        some { payload := st.current_sample,
               obs_number := (st.LWM2M_obs_number + 1) % 256 }) := by
  refine ⟨rfl, rfl, rfl, rfl, rfl, rfl, rfl, rfl, rfl, rfl, rfl, ?_, ?_⟩
  · intro send_result
    exact dispatch_sends (LWM2M_start_notification st) send_result rfl rfl
  · intro reading send_result
    obtain ⟨h1, h2, h3, h4⟩ :=
      thread_sample_quiet (LWM2M_start_notification st) reading rfl
    have hd := dispatch_sends
      (LWM2M_notification_thread_sample (LWM2M_start_notification st) reading) send_result
      (by rw [h2]; rfl) (by rw [h3]; rfl)
    rw [h1, h4] at hd
    exact hd

/-- The value after a batch, one pair at a time from the front. -/
theorem last_value_cons (key : String) (o : QueryOption) (rest : List QueryOption)
    (old : sample) :
    last_value key (o :: rest) old =
      last_value key rest (if o.attr = key then sscanf_f o.value old else old) := by
  unfold last_value
  rw [List.reverse_cons, List.findSome?_append]
  cases hf : rest.reverse.findSome? (fun o => if o.attr = key then o.value else none) with
  | some v => simp
  | none =>
    by_cases hk : o.attr = key
    · cases hv : o.value <;> simp [hk, hv, sscanf_f]
    · simp [hk]

/-- The five attributes after one option: the attribute whose key the option has takes
the converted value, all others keep theirs. -/
theorem set_notification_attribute_values (st : State) (o : QueryOption) :
    (set_notification_attribute st o).LWM2M_pmin =
      (if o.attr = "pmin" then sscanf_f o.value st.LWM2M_pmin else st.LWM2M_pmin) ∧
    (set_notification_attribute st o).LWM2M_pmax =
      (if o.attr = "pmax" then sscanf_f o.value st.LWM2M_pmax else st.LWM2M_pmax) ∧
    (set_notification_attribute st o).LWM2M_gt =
      (if o.attr = "gt" then sscanf_f o.value st.LWM2M_gt else st.LWM2M_gt) ∧
    (set_notification_attribute st o).LWM2M_lt =
      (if o.attr = "lt" then sscanf_f o.value st.LWM2M_lt else st.LWM2M_lt) ∧
    (set_notification_attribute st o).LWM2M_step =
      (if o.attr = "st" then sscanf_f o.value st.LWM2M_step else st.LWM2M_step) := by
  unfold set_notification_attribute LWM2M_stop_notification
  split_ifs with h1 h2 h3 h4 h5 h6 <;> simp_all

/-- The five attributes after the loop over the options are the values after the
batch in the sense of `last_value`. -/
theorem set_notification_attributes_values (st : State) (q : List QueryOption) :
    (set_notification_attributes st q).LWM2M_pmin = last_value "pmin" q st.LWM2M_pmin ∧
    (set_notification_attributes st q).LWM2M_pmax = last_value "pmax" q st.LWM2M_pmax ∧
    (set_notification_attributes st q).LWM2M_gt = last_value "gt" q st.LWM2M_gt ∧
    (set_notification_attributes st q).LWM2M_lt = last_value "lt" q st.LWM2M_lt ∧
    (set_notification_attributes st q).LWM2M_step = last_value "st" q st.LWM2M_step := by
  induction q generalizing st with
  | nil => exact ⟨rfl, rfl, rfl, rfl, rfl⟩
  | cons o rest ih =>
    have e : set_notification_attributes st (o :: rest) =
        set_notification_attributes (set_notification_attribute st o) rest := rfl
    obtain ⟨a1, a2, a3, a4, a5⟩ := set_notification_attribute_values st o
    obtain ⟨b1, b2, b3, b4, b5⟩ := ih (set_notification_attribute st o)
    rw [e, last_value_cons, last_value_cons, last_value_cons, last_value_cons,
      last_value_cons, ← a1, ← a2, ← a3, ← a4, ← a5]
    exact ⟨b1, b2, b3, b4, b5⟩

/-- Options with a name that is not compared can be dropped from the loop. -/
theorem set_notification_attributes_filter (st : State) (q : List QueryOption) :
    set_notification_attributes st q =
      set_notification_attributes st (q.filter (fun o => recognised o.attr)) := by
  induction q generalizing st with
  | nil => rfl
  | cons o rest ih =>
    by_cases h : recognised o.attr = true
    · have hf : (o :: rest).filter (fun o => recognised o.attr) =
          o :: rest.filter (fun o => recognised o.attr) := by simp [List.filter_cons, h]
      rw [hf]
      exact ih (set_notification_attribute st o)
    · have h0 : recognised o.attr = false := by simpa using h
      have hf : (o :: rest).filter (fun o => recognised o.attr) =
          rest.filter (fun o => recognised o.attr) := by simp [List.filter_cons, h0]
      have e : set_notification_attributes st (o :: rest) =
          set_notification_attributes (set_notification_attribute st o) rest := rfl
      rw [hf, e, set_notification_attribute_unrecognised st o h0]
      exact ih st

/-- When no option has a compared name the loop changes nothing. -/
theorem set_notification_attributes_none (st : State) (q : List QueryOption)
    (h : q.any (fun o => recognised o.attr) = false) :
    set_notification_attributes st q = st := by
  have hf : q.filter (fun o => recognised o.attr) = [] := by
    rw [List.filter_eq_nil_iff]
    intro o ho hr
    have hany : q.any (fun o => recognised o.attr) = true :=
      List.any_eq_true.mpr ⟨o, ho, hr⟩
    rw [h] at hany
    exact Bool.false_ne_true hany
  rw [set_notification_attributes_filter, hf]
  rfl

/-- The write-attributes request with at least one compared name: the options are
applied, then the state is re-initialised and 2.04 is answered. -/
theorem LWM2M_resource_cb_query_changed (st : State) (q : List QueryOption)
    (h : q.any (fun o => recognised o.attr) = true) :
    LWM2M_resource_cb_query st q =
      (LWM2M_notification_init
          (set_notification_attributes { st with attribute_update := false } q),
        sn_coap_msg_code.COAP_MSG_CODE_RESPONSE_CHANGED) := by
  have hf := set_notification_attributes_flag { st with attribute_update := false } q
  rw [h, Bool.or_true] at hf
  simp only [LWM2M_resource_cb_query, hf, if_true]

/-- C14: for every batch with at least one recognised key, all pairs are applied
first and `LWM2M_notification_init` runs once on the result: each attribute has the
value of the last pair of the batch with its key (its previous value when there is
none), the limits, the step window and the intervals of the pmin and pmax timers are
computed from these values, and the mailbox holds `get_sample()`; for `gt = x` and
`st = y` in one batch the baseline uses both new values, and for `pmin = x` and
`pmax = y` the timers run with `x` and `y`. -/
theorem write_attributes_reinit_once (st : State) (q : List QueryOption)
    (h : q.any (fun o => recognised o.attr) = true) :
    LWM2M_resource_cb_query st q =
      (LWM2M_notification_init
          (set_notification_attributes { st with attribute_update := false } q),
        sn_coap_msg_code.COAP_MSG_CODE_RESPONSE_CHANGED) ∧
    (LWM2M_resource_cb_query st q).1.LWM2M_pmin = last_value "pmin" q st.LWM2M_pmin ∧
    (LWM2M_resource_cb_query st q).1.LWM2M_pmax = last_value "pmax" q st.LWM2M_pmax ∧
    (LWM2M_resource_cb_query st q).1.LWM2M_gt = last_value "gt" q st.LWM2M_gt ∧
    (LWM2M_resource_cb_query st q).1.LWM2M_lt = last_value "lt" q st.LWM2M_lt ∧
    (LWM2M_resource_cb_query st q).1.LWM2M_step = last_value "st" q st.LWM2M_step ∧
    (LWM2M_resource_cb_query st q).1.limits =
      [last_value "lt" q st.LWM2M_lt, last_value "gt" q st.LWM2M_gt] ∧
    (LWM2M_resource_cb_query st q).1.high_step =
      get_sample st + last_value "st" q st.LWM2M_step ∧
    (LWM2M_resource_cb_query st q).1.low_step =
      get_sample st - last_value "st" q st.LWM2M_step ∧
    (LWM2M_resource_cb_query st q).1.last_band =
      band [last_value "lt" q st.LWM2M_lt, last_value "gt" q st.LWM2M_gt] (get_sample st) ∧
    (LWM2M_resource_cb_query st q).1.pmin_timer.attached =
      some (Handler.on_pmin, last_value "pmin" q st.LWM2M_pmin) ∧
    (LWM2M_resource_cb_query st q).1.pmax_timer.attached =
      some (Handler.on_pmax, last_value "pmax" q st.LWM2M_pmax) ∧
    (LWM2M_resource_cb_query st q).1.notify_sample = get_sample st ∧
    (LWM2M_resource_cb_query st q).1.notification_trigger = true ∧
    (∀ x y : sample, q = [{ attr := "gt", value := some x }, { attr := "st", value := some y }] →
      (LWM2M_resource_cb_query st q).1.limits = [st.LWM2M_lt, x] ∧
      (LWM2M_resource_cb_query st q).1.high_step = st.current_sample + y ∧
      (LWM2M_resource_cb_query st q).1.low_step = st.current_sample - y) ∧
    (∀ x y : sample,
      q = [{ attr := "pmin", value := some x }, { attr := "pmax", value := some y }] →
      (LWM2M_resource_cb_query st q).1.pmin_timer.attached = some (Handler.on_pmin, x) ∧
      (LWM2M_resource_cb_query st q).1.pmax_timer.attached = some (Handler.on_pmax, y)) := by
  have e := LWM2M_resource_cb_query_changed st q h
  have hc : (set_notification_attributes { st with attribute_update := false } q).current_sample
      = st.current_sample :=
    (set_notification_attributes_frame { st with attribute_update := false } q).1
  obtain ⟨v1, v2, v3, v4, v5⟩ :=
    set_notification_attributes_values { st with attribute_update := false } q
  have hfst : (LWM2M_resource_cb_query st q).1 = LWM2M_notification_init
      (set_notification_attributes { st with attribute_update := false } q) := by rw [e]
  have hpmin : (LWM2M_resource_cb_query st q).1.LWM2M_pmin = last_value "pmin" q st.LWM2M_pmin := by
    rw [hfst]; exact v1
  have hpmax : (LWM2M_resource_cb_query st q).1.LWM2M_pmax = last_value "pmax" q st.LWM2M_pmax := by
    rw [hfst]; exact v2
  have hgt : (LWM2M_resource_cb_query st q).1.LWM2M_gt = last_value "gt" q st.LWM2M_gt := by
    rw [hfst]; exact v3
  have hlt : (LWM2M_resource_cb_query st q).1.LWM2M_lt = last_value "lt" q st.LWM2M_lt := by
    rw [hfst]; exact v4
  have hst : (LWM2M_resource_cb_query st q).1.LWM2M_step = last_value "st" q st.LWM2M_step := by
    rw [hfst]; exact v5
  have hlim : (LWM2M_resource_cb_query st q).1.limits =
      [last_value "lt" q st.LWM2M_lt, last_value "gt" q st.LWM2M_gt] := by
    rw [← hlt, ← hgt, hfst]; rfl
  have hhigh : (LWM2M_resource_cb_query st q).1.high_step =
      get_sample st + last_value "st" q st.LWM2M_step := by
    rw [← hst, hfst]
    simp only [LWM2M_notification_init, report_sample_fst, get_sample, hc]
  have hlow : (LWM2M_resource_cb_query st q).1.low_step =
      get_sample st - last_value "st" q st.LWM2M_step := by
    rw [← hst, hfst]
    simp only [LWM2M_notification_init, report_sample_fst, get_sample, hc]
  have hband : (LWM2M_resource_cb_query st q).1.last_band =
      band [last_value "lt" q st.LWM2M_lt, last_value "gt" q st.LWM2M_gt] (get_sample st) := by
    rw [← hlt, ← hgt, hfst]
    simp only [LWM2M_notification_init, report_sample_fst, get_sample, hc]
  have htmin : (LWM2M_resource_cb_query st q).1.pmin_timer.attached =
      some (Handler.on_pmin, last_value "pmin" q st.LWM2M_pmin) := by
    rw [← hpmin, hfst]; rfl
  have htmax : (LWM2M_resource_cb_query st q).1.pmax_timer.attached =
      some (Handler.on_pmax, last_value "pmax" q st.LWM2M_pmax) := by
    rw [← hpmax, hfst]; rfl
  have hmail : (LWM2M_resource_cb_query st q).1.notify_sample = get_sample st := by
    rw [hfst]
    simp only [LWM2M_notification_init, report_sample_fst, get_sample, hc]
  refine ⟨e, hpmin, hpmax, hgt, hlt, hst, hlim, hhigh, hlow, hband, htmin, htmax, hmail,
    by rw [hfst]; rfl, ?_, ?_⟩
  · intro x y hq
    rw [hlim, hhigh, hlow, hq]
    simp [last_value, get_sample]
  · intro x y hq
    rw [htmin, htmax, hq]
    simp [last_value]

/-- In the scenario the batch `pmin=5&gt=70&st=2&pmax=30&pmin=7` is accepted and the
new baseline uses the values after the whole batch: limits `[50, 70]`, step window
`[53, 57]` around the current sample `55`, and timers running with `pmin = 7` (the
last of the two) and `pmax = 30`. -/
theorem write_attributes_reinit_once_witness :
    (LWM2M_resource_cb_query scenario_start
      [{ attr := "pmin", value := some 5 }, { attr := "gt", value := some 70 },
       { attr := "st", value := some 2 }, { attr := "pmax", value := some 30 },
       { attr := "pmin", value := some 7 }]).1.limits = [50, 70] ∧
    (LWM2M_resource_cb_query scenario_start
      [{ attr := "pmin", value := some 5 }, { attr := "gt", value := some 70 },
       { attr := "st", value := some 2 }, { attr := "pmax", value := some 30 },
       { attr := "pmin", value := some 7 }]).1.high_step = 57 ∧
    (LWM2M_resource_cb_query scenario_start
      [{ attr := "pmin", value := some 5 }, { attr := "gt", value := some 70 },
       { attr := "st", value := some 2 }, { attr := "pmax", value := some 30 },
       { attr := "pmin", value := some 7 }]).1.low_step = 53 ∧
    (LWM2M_resource_cb_query scenario_start
      [{ attr := "pmin", value := some 5 }, { attr := "gt", value := some 70 },
       { attr := "st", value := some 2 }, { attr := "pmax", value := some 30 },
       { attr := "pmin", value := some 7 }]).1.pmin_timer.attached =
        some (Handler.on_pmin, 7) ∧
    (LWM2M_resource_cb_query scenario_start
      [{ attr := "pmin", value := some 5 }, { attr := "gt", value := some 70 },
       { attr := "st", value := some 2 }, { attr := "pmax", value := some 30 },
       { attr := "pmin", value := some 7 }]).1.pmax_timer.attached =
        some (Handler.on_pmax, 30) := by
  obtain ⟨_, _, _, _, _, _, h1, h2, h3, _, h4, h5, _⟩ :=
    write_attributes_reinit_once scenario_start
      [{ attr := "pmin", value := some 5 }, { attr := "gt", value := some 70 },
       { attr := "st", value := some 2 }, { attr := "pmax", value := some 30 },
       { attr := "pmin", value := some 7 }]
      (by simp [recognised])
  rw [h1, h2, h3, h4, h5, scenario_start_eq]
  simp [last_value, get_sample, initial_state]
  norm_num

/-- C15: a batch in which no key is recognised is answered 4.00 (Bad Request) and
changes no variable except that `attribute_update` is cleared; and for every batch
the outcome is that of the batch without its unrecognised pairs. -/
theorem write_attributes_rejected (st : State) (q : List QueryOption)
    (h : q.any (fun o => recognised o.attr) = false) :
    LWM2M_resource_cb_query st q =
      ({ st with attribute_update := false },
        sn_coap_msg_code.COAP_MSG_CODE_RESPONSE_BAD_REQUEST) ∧
    (∀ q2 : List QueryOption,
      LWM2M_resource_cb_query st q2 =
        LWM2M_resource_cb_query st (q2.filter (fun o => recognised o.attr))) ∧
    (∀ (st2 : State) (o : QueryOption), recognised o.attr = false →
      set_notification_attribute st2 o = st2) := by
  refine ⟨?_, ?_, fun st2 o ho => set_notification_attribute_unrecognised st2 o ho⟩
  · have e := set_notification_attributes_none { st with attribute_update := false } q h
    simp [LWM2M_resource_cb_query, e]
  · intro q2
    simp only [LWM2M_resource_cb_query]
    rw [← set_notification_attributes_filter]

/-- In the scenario the batch `foo=1&step=7` has no recognised key: it is answered
4.00 and the step attribute stays `5`. -/
theorem write_attributes_rejected_witness :
    LWM2M_resource_cb_query scenario_start
        [{ attr := "foo", value := some 1 }, { attr := "step", value := some 7 }] =
      ({ scenario_start with attribute_update := false },
        sn_coap_msg_code.COAP_MSG_CODE_RESPONSE_BAD_REQUEST) :=
  (write_attributes_rejected scenario_start
    [{ attr := "foo", value := some 1 }, { attr := "step", value := some 7 }]
    (by simp [recognised])).1

/-- C16, on the code: the key of the step attribute is `st`; the pair `step=7` is not
recognised: in the scenario it is answered 4.00 and the step attribute stays `5`. -/
theorem step_key_not_recognised :
    recognised "step" = false ∧
    LWM2M_resource_cb_query scenario_start [{ attr := "step", value := some 7 }] =
      ({ scenario_start with attribute_update := false },
        sn_coap_msg_code.COAP_MSG_CODE_RESPONSE_BAD_REQUEST) ∧
    (LWM2M_resource_cb_query scenario_start
      [{ attr := "step", value := some 7 }]).1.LWM2M_step = 5 := by
  have hr : recognised "step" = false := by simp [recognised]
  have e : LWM2M_resource_cb_query scenario_start [{ attr := "step", value := some 7 }] =
      ({ scenario_start with attribute_update := false },
        sn_coap_msg_code.COAP_MSG_CODE_RESPONSE_BAD_REQUEST) := by
    have e1 := set_notification_attributes_none { scenario_start with attribute_update := false }
      [{ attr := "step", value := some 7 }] (by simp [recognised])
    simp [LWM2M_resource_cb_query, e1]
  refine ⟨hr, e, ?_⟩
  rw [e, scenario_start_eq]
  rfl

/-- C16, amended to the key `st`: the keys compared are `pmin`, `pmax`, `gt`, `lt`,
`st` and `cancel`; for every value `x` the single pair `st=x` is answered 2.04, sets
the step attribute to `x` and re-initialises with it. -/
theorem st_key_sets_step (st : State) (x : sample) :
    (∀ a : String, recognised a = true ↔
      (a = "pmin" ∨ a = "pmax" ∨ a = "gt" ∨ a = "lt" ∨ a = "st" ∨ a = "cancel")) ∧
    (∀ (st2 : State) (o : QueryOption),
      (set_notification_attribute st2 o).attribute_update =
        (st2.attribute_update || recognised o.attr)) ∧
    LWM2M_resource_cb_query st [{ attr := "st", value := some x }] =
      (LWM2M_notification_init { st with attribute_update := true, LWM2M_step := x },
        sn_coap_msg_code.COAP_MSG_CODE_RESPONSE_CHANGED) ∧
    (LWM2M_resource_cb_query st [{ attr := "st", value := some x }]).1.LWM2M_step = x ∧
    (LWM2M_resource_cb_query st [{ attr := "st", value := some x }]).1.high_step =
      st.current_sample + x ∧
    (LWM2M_resource_cb_query st [{ attr := "st", value := some x }]).1.low_step =
      st.current_sample - x := by
  have e : LWM2M_resource_cb_query st [{ attr := "st", value := some x }] =
      (LWM2M_notification_init { st with attribute_update := true, LWM2M_step := x },
        sn_coap_msg_code.COAP_MSG_CODE_RESPONSE_CHANGED) := by
    simp [LWM2M_resource_cb_query, set_notification_attributes, set_notification_attribute,
      sscanf_f]
  refine ⟨fun a => by simp [recognised], set_notification_attribute_flag, e, ?_, ?_, ?_⟩
  · rw [e]; rfl
  · rw [e]; rfl
  · rw [e]; rfl

/-- C17: a batch that contains the key `cancel` is answered 2.04 and leaves
`LWM2M_observing = false`, also when `cancel` is the only key; the `cancel` option
itself writes only `LWM2M_observing` and `attribute_update`, so `pmin`, `pmax`, `gt`,
`lt` and `step` keep their values. -/
theorem cancel_deactivates (st : State) (q : List QueryOption)
    (h : q.any (fun o => decide (o.attr = "cancel")) = true) :
    (LWM2M_resource_cb_query st q).2 = sn_coap_msg_code.COAP_MSG_CODE_RESPONSE_CHANGED ∧
    (LWM2M_resource_cb_query st q).1.LWM2M_observing = false ∧
    (∀ v : Option sample,
      LWM2M_resource_cb_query st [{ attr := "cancel", value := v }] =
        (LWM2M_notification_init
            { st with attribute_update := true, LWM2M_observing := false },
          sn_coap_msg_code.COAP_MSG_CODE_RESPONSE_CHANGED)) ∧
    (∀ (st2 : State) (v : Option sample),
      set_notification_attribute st2 { attr := "cancel", value := v } =
        { st2 with LWM2M_observing := false, attribute_update := true } ∧
      (set_notification_attribute st2 { attr := "cancel", value := v }).LWM2M_pmin =
        st2.LWM2M_pmin ∧
      (set_notification_attribute st2 { attr := "cancel", value := v }).LWM2M_pmax =
        st2.LWM2M_pmax ∧
      (set_notification_attribute st2 { attr := "cancel", value := v }).LWM2M_gt =
        st2.LWM2M_gt ∧
      (set_notification_attribute st2 { attr := "cancel", value := v }).LWM2M_lt =
        st2.LWM2M_lt ∧
      (set_notification_attribute st2 { attr := "cancel", value := v }).LWM2M_step =
        st2.LWM2M_step) := by
  have hrec : q.any (fun o => recognised o.attr) = true := by
    obtain ⟨o, ho, hc⟩ := List.any_eq_true.mp h
    have hc' : o.attr = "cancel" := by simpa using hc
    exact List.any_eq_true.mpr ⟨o, ho, by simp [recognised, hc']⟩
  have e := LWM2M_resource_cb_query_changed st q hrec
  have hcancel : ∀ (st2 : State) (v : Option sample),
      set_notification_attribute st2 { attr := "cancel", value := v } =
        { st2 with LWM2M_observing := false, attribute_update := true } := by
    intro st2 v
    simp [set_notification_attribute, LWM2M_stop_notification]
  refine ⟨by rw [e], ?_, ?_, ?_⟩
  · rw [e, (LWM2M_notification_init_frame _).1, set_notification_attributes_observing, h]
    simp
  · intro v
    simp [LWM2M_resource_cb_query, set_notification_attributes, hcancel]
  · intro st2 v
    rw [hcancel]
    exact ⟨rfl, rfl, rfl, rfl, rfl, rfl⟩

/-- In the scenario the batch `pmin=5&cancel` is answered 2.04 and ends the
observation. -/
theorem cancel_deactivates_witness :
    (LWM2M_resource_cb_query scenario_start
      [{ attr := "pmin", value := some 5 }, { attr := "cancel", value := none }]).2 =
        sn_coap_msg_code.COAP_MSG_CODE_RESPONSE_CHANGED ∧
    (LWM2M_resource_cb_query scenario_start
      [{ attr := "pmin", value := some 5 }, { attr := "cancel", value := none }]).1.LWM2M_observing
        = false :=
  ⟨(cancel_deactivates scenario_start
      [{ attr := "pmin", value := some 5 }, { attr := "cancel", value := none }]
      (by simp)).1,
   (cancel_deactivates scenario_start
      [{ attr := "pmin", value := some 5 }, { attr := "cancel", value := none }]
      (by simp)).2.1⟩

/-- The scheduler functions write neither `LWM2M_observing` nor the observation
number. -/
theorem scheduler_frame (st : State) (s : sample) :
    ((report_sample st s).1.LWM2M_observing = st.LWM2M_observing ∧
      (report_sample st s).1.LWM2M_obs_number = st.LWM2M_obs_number) ∧
    ((schedule_report st s).LWM2M_observing = st.LWM2M_observing ∧
      (schedule_report st s).LWM2M_obs_number = st.LWM2M_obs_number) ∧
    ((on_update st s).LWM2M_observing = st.LWM2M_observing ∧
      (on_update st s).LWM2M_obs_number = st.LWM2M_obs_number) ∧
    ((on_pmin st).LWM2M_observing = st.LWM2M_observing ∧
      (on_pmin st).LWM2M_obs_number = st.LWM2M_obs_number) ∧
    ((on_pmax st).LWM2M_observing = st.LWM2M_observing ∧
      (on_pmax st).LWM2M_obs_number = st.LWM2M_obs_number) := by
  have hs : (schedule_report st s).LWM2M_observing = st.LWM2M_observing ∧
      (schedule_report st s).LWM2M_obs_number = st.LWM2M_obs_number := by
    unfold schedule_report
    split_ifs <;> exact ⟨rfl, rfl⟩
  refine ⟨⟨rfl, rfl⟩, hs, ?_, ?_, ⟨rfl, rfl⟩⟩
  · unfold on_update
    split_ifs
    · exact hs
    · exact ⟨rfl, rfl⟩
  · unfold on_pmin
    split_ifs <;> exact ⟨rfl, rfl⟩

/-- The write-attributes request never switches the observation on and does not write
the observation number. -/
theorem LWM2M_resource_cb_query_frame (st : State) (q : List QueryOption) :
    (LWM2M_resource_cb_query st q).1.LWM2M_observing =
      (st.LWM2M_observing && !q.any (fun o => decide (o.attr = "cancel"))) ∧
    (LWM2M_resource_cb_query st q).1.LWM2M_obs_number = st.LWM2M_obs_number := by
  have ho := set_notification_attributes_observing { st with attribute_update := false } q
  have hn := (set_notification_attributes_frame { st with attribute_update := false } q).2.2.2.2.2.2.2.2.2.2.2.2
  unfold LWM2M_resource_cb_query
  simp only []
  split_ifs
  · exact ⟨ho, hn⟩
  · exact ⟨ho, hn⟩

/-- One step other than the start of the observation, taken while not observing:
nothing is handed to the transport, the observation number is kept and the session
stays not observing. -/
theorem Op.run_not_observing (st : State) (op : Op) (h : st.LWM2M_observing = false)
    (hop : op ≠ Op.start) :
    (Op.run st op).2 = [] ∧
    (Op.run st op).1.LWM2M_obs_number = st.LWM2M_obs_number ∧
    (Op.run st op).1.LWM2M_observing = false := by
  obtain ⟨hr, hs, hu, hpmin, hpmax⟩ := scheduler_frame st
    (match op with
      | Op.update s => s
      | Op.schedule s => s
      | Op.report s => s
      | _ => 0)
  cases op with
  | update s => exact ⟨rfl, hu.2, hu.1.trans h⟩
  | schedule s => exact ⟨rfl, hs.2, hs.1.trans h⟩
  | report s => exact ⟨rfl, hr.2, hr.1.trans h⟩
  | pmin => exact ⟨rfl, hpmin.2, hpmin.1.trans h⟩
  | pmax => exact ⟨rfl, hpmax.2, hpmax.1.trans h⟩
  | reinit => exact ⟨rfl, rfl, h⟩
  | write_attributes q =>
    obtain ⟨h1, h2⟩ := LWM2M_resource_cb_query_frame st q
    refine ⟨rfl, h2, ?_⟩
    show (LWM2M_resource_cb_query st q).1.LWM2M_observing = false
    rw [h1, h]; rfl
  | start => exact absurd rfl hop
  | stop => exact ⟨rfl, rfl, rfl⟩
  | thread reading send_result =>
    have e := (thread_not_observing st reading send_result h).2
    refine ⟨?_, ?_, ?_⟩
    · show (LWM2M_notification_thread st reading send_result).2.toList = []
      rw [e]; rfl
    · show (LWM2M_notification_thread st reading send_result).1.LWM2M_obs_number =
        st.LWM2M_obs_number
      rw [e]
    · show (LWM2M_notification_thread st reading send_result).1.LWM2M_observing = false
      rw [e]; exact h

/-- C18: from every state with `LWM2M_observing = false`, a run of `on_update`,
`schedule_report`, `report_sample`, `on_pmin`, `on_pmax`, re-initialisation,
write-attributes requests, stops and passes of the thread loop, without a start of
the observation, hands nothing to the transport, keeps the observation number and
stays not observing. -/
theorem no_send_while_inactive (st : State) (ops : List Op)
    (h : st.LWM2M_observing = false) (hops : Op.start ∉ ops) :
    (run_ops st ops).2 = [] ∧
    (run_ops st ops).1.LWM2M_obs_number = st.LWM2M_obs_number ∧
    (run_ops st ops).1.LWM2M_observing = false := by
  induction ops generalizing st with
  | nil => exact ⟨rfl, rfl, h⟩
  | cons op rest ih =>
    have hop : op ≠ Op.start := fun e => hops (e ▸ List.mem_cons_self _ _)
    have hrest : Op.start ∉ rest := fun hm => hops (List.mem_cons_of_mem _ hm)
    obtain ⟨h1, h2, h3⟩ := Op.run_not_observing st op h hop
    obtain ⟨i1, i2, i3⟩ := ih (Op.run st op).1 h3 hrest
    refine ⟨?_, ?_, ?_⟩
    · show (Op.run st op).2 ++ (run_ops (Op.run st op).1 rest).2 = []
      rw [h1, i1]; rfl
    · show (run_ops (Op.run st op).1 rest).1.LWM2M_obs_number = st.LWM2M_obs_number
      rw [i2, h2]
    · exact i3

/-- In the scenario with the observation stopped: the pmax timer fires and sets the
trigger, the thread loop runs, a sample arrives, pmin expires and the attributes are
re-applied; nothing is sent. -/
theorem no_send_while_inactive_witness :
    scenario_stopped.LWM2M_observing = false ∧
    (run_ops scenario_stopped
      [Op.pmax, Op.thread (61 / 100) 1, Op.update 61, Op.pmin,
       Op.write_attributes [{ attr := "pmin", value := some 5 }], Op.thread (62 / 100) 1]).2 = [] ∧
    (Op.run scenario_stopped Op.pmax).1.notification_trigger = true :=
  ⟨rfl,
   (no_send_while_inactive scenario_stopped
      [Op.pmax, Op.thread (61 / 100) 1, Op.update 61, Op.pmin,
       Op.write_attributes [{ attr := "pmin", value := some 5 }], Op.thread (62 / 100) 1]
      rfl (by simp)).1,
   rfl⟩

/-- The write-attributes request with the single option `cancel`. -/
theorem LWM2M_resource_cb_query_cancel (st : State) (v : Option sample) :
    LWM2M_resource_cb_query st [{ attr := "cancel", value := v }] =
      (LWM2M_notification_init
          { st with attribute_update := true, LWM2M_observing := false },
        sn_coap_msg_code.COAP_MSG_CODE_RESPONSE_CHANGED) := by
  simp [LWM2M_resource_cb_query, set_notification_attributes, set_notification_attribute,
    LWM2M_stop_notification]

/-- C19, on the code: deactivation does not stop the timers.  In the scenario with a
deferred report, after `LWM2M_stop_notification` both timers are still attached and
`report_scheduled` is still set, and after a stop in the ready state `pmin_exceeded`
is still set; after a `cancel` update both timers are attached anew. -/
theorem deactivation_keeps_timers :
    (LWM2M_stop_notification scenario_pending).LWM2M_observing = false ∧
    (LWM2M_stop_notification scenario_pending).pmin_timer.attached =
      some (Handler.on_pmin, 10) ∧
    (LWM2M_stop_notification scenario_pending).pmax_timer.attached =
      some (Handler.on_pmax, 60) ∧
    (LWM2M_stop_notification scenario_pending).report_scheduled = true ∧
    (LWM2M_stop_notification (on_pmin scenario_start)).pmin_exceeded = true ∧
    (LWM2M_resource_cb_query scenario_pending
      [{ attr := "cancel", value := none }]).1.LWM2M_observing = false ∧
    (LWM2M_resource_cb_query scenario_pending
      [{ attr := "cancel", value := none }]).1.pmin_timer.attached =
        some (Handler.on_pmin, 10) ∧
    (LWM2M_resource_cb_query scenario_pending
      [{ attr := "cancel", value := none }]).1.pmax_timer.attached =
        some (Handler.on_pmax, 60) := by
  have hp : on_pmin scenario_start =
      { scenario_start with pmin_exceeded := true, pmin_timer := { attached := none } } :=
    on_pmin_of_not_scheduled _ (by rw [scenario_start_eq]; rfl)
  have e := LWM2M_resource_cb_query_cancel scenario_pending none
  refine ⟨rfl, ?_, ?_, ?_, by rw [hp]; rfl, by rw [e]; rfl, ?_, ?_⟩
  · rw [scenario_pending_eq, scenario_start_eq]; rfl
  · rw [scenario_pending_eq, scenario_start_eq]; rfl
  · rw [scenario_pending_eq]; rfl
  · rw [e, scenario_pending_eq, scenario_start_eq]; rfl
  · rw [e, scenario_pending_eq, scenario_start_eq]; rfl

/-- C19, amended to what deactivation does: `LWM2M_stop_notification` clears
`LWM2M_observing` and writes nothing else, so both timers, `report_scheduled` and
`pmin_exceeded` are as before; a `cancel` update clears `LWM2M_observing` and then
re-initialises, which leaves both timers attached with the current `pmin` and `pmax`
and `pmin_exceeded` clear. -/
theorem deactivation_effect (st : State) (v : Option sample) :
    LWM2M_stop_notification st = { st with LWM2M_observing := false } ∧
    (LWM2M_stop_notification st).pmin_timer = st.pmin_timer ∧
    (LWM2M_stop_notification st).pmax_timer = st.pmax_timer ∧
    (LWM2M_stop_notification st).report_scheduled = st.report_scheduled ∧
    (LWM2M_stop_notification st).pmin_exceeded = st.pmin_exceeded ∧
    (LWM2M_resource_cb_query st [{ attr := "cancel", value := v }]).1.LWM2M_observing
      = false ∧
    (LWM2M_resource_cb_query st [{ attr := "cancel", value := v }]).1.pmin_timer.attached
      = some (Handler.on_pmin, st.LWM2M_pmin) ∧
    (LWM2M_resource_cb_query st [{ attr := "cancel", value := v }]).1.pmax_timer.attached
      = some (Handler.on_pmax, st.LWM2M_pmax) ∧
    (LWM2M_resource_cb_query st [{ attr := "cancel", value := v }]).1.pmin_exceeded
      = false := by
  rw [LWM2M_resource_cb_query_cancel st v]
  exact ⟨rfl, rfl, rfl, rfl, rfl, rfl, rfl, rfl, rfl⟩

/-- C20, on the code: an update that makes `lt > gt` is accepted.  In the scenario
(`gt = 60`) the pair `lt=70` is answered 2.04, `lt` becomes `70` and the limits become
`[70, 60]`. -/
theorem non_ascending_accepted :
    (LWM2M_resource_cb_query scenario_start [{ attr := "lt", value := some 70 }]).2 =
      sn_coap_msg_code.COAP_MSG_CODE_RESPONSE_CHANGED ∧
    (LWM2M_resource_cb_query scenario_start [{ attr := "lt", value := some 70 }]).1.LWM2M_lt
      = 70 ∧
    (LWM2M_resource_cb_query scenario_start [{ attr := "lt", value := some 70 }]).1.LWM2M_gt
      = 60 ∧
    (LWM2M_resource_cb_query scenario_start [{ attr := "lt", value := some 70 }]).1.limits
      = [70, 60] ∧
    scenario_start.LWM2M_lt = 50 := by
  have e : LWM2M_resource_cb_query scenario_start [{ attr := "lt", value := some 70 }] =
      (LWM2M_notification_init { scenario_start with attribute_update := true, LWM2M_lt := 70 },
        sn_coap_msg_code.COAP_MSG_CODE_RESPONSE_CHANGED) := by
    simp [LWM2M_resource_cb_query, set_notification_attributes, set_notification_attribute,
      sscanf_f]
  rw [e]
  refine ⟨rfl, rfl, ?_, ?_, ?_⟩
  · rw [scenario_start_eq]; rfl
  · rw [scenario_start_eq]; rfl
  · rw [scenario_start_eq]; rfl

/-- C20, amended to what the code does: a batch with a recognised key after which
`lt > gt` (whether through a new `lt`, a new `gt` or both) is applied like any other:
it is answered 2.04, every attribute has its value after the batch, and
re-initialisation stores the limits `[lt, gt]`, which are not ascending. -/
theorem non_ascending_update_applied (st : State) (q : List QueryOption)
    (hrec : q.any (fun o => recognised o.attr) = true)
    (h : last_value "gt" q st.LWM2M_gt < last_value "lt" q st.LWM2M_lt) :
    (LWM2M_resource_cb_query st q).2 = sn_coap_msg_code.COAP_MSG_CODE_RESPONSE_CHANGED ∧
    (LWM2M_resource_cb_query st q).1.LWM2M_lt = last_value "lt" q st.LWM2M_lt ∧
    (LWM2M_resource_cb_query st q).1.LWM2M_gt = last_value "gt" q st.LWM2M_gt ∧
    (LWM2M_resource_cb_query st q).1.LWM2M_pmin = last_value "pmin" q st.LWM2M_pmin ∧
    (LWM2M_resource_cb_query st q).1.LWM2M_pmax = last_value "pmax" q st.LWM2M_pmax ∧
    (LWM2M_resource_cb_query st q).1.LWM2M_step = last_value "st" q st.LWM2M_step ∧
    (LWM2M_resource_cb_query st q).1.limits =
      [last_value "lt" q st.LWM2M_lt, last_value "gt" q st.LWM2M_gt] ∧
    ¬ (LWM2M_resource_cb_query st q).1.limits.Sorted (· ≤ ·) ∧
    (∀ x : sample, q = [{ attr := "lt", value := some x }] →
      st.LWM2M_gt < x ∧
      (LWM2M_resource_cb_query st q).1.LWM2M_lt = x ∧
      (LWM2M_resource_cb_query st q).1.LWM2M_gt = st.LWM2M_gt ∧
      (LWM2M_resource_cb_query st q).1.limits = [x, st.LWM2M_gt]) ∧
    (∀ x : sample, q = [{ attr := "gt", value := some x }] →
      x < st.LWM2M_lt ∧
      (LWM2M_resource_cb_query st q).1.LWM2M_gt = x ∧
      (LWM2M_resource_cb_query st q).1.LWM2M_lt = st.LWM2M_lt ∧
      (LWM2M_resource_cb_query st q).1.limits = [st.LWM2M_lt, x]) := by
  have e := LWM2M_resource_cb_query_changed st q hrec
  obtain ⟨v1, v2, v3, v4, v5⟩ :=
    set_notification_attributes_values { st with attribute_update := false } q
  have hfst : (LWM2M_resource_cb_query st q).1 = LWM2M_notification_init
      (set_notification_attributes { st with attribute_update := false } q) := by rw [e]
  have hlt : (LWM2M_resource_cb_query st q).1.LWM2M_lt = last_value "lt" q st.LWM2M_lt := by
    rw [hfst]; exact v4
  have hgt : (LWM2M_resource_cb_query st q).1.LWM2M_gt = last_value "gt" q st.LWM2M_gt := by
    rw [hfst]; exact v3
  have hlim : (LWM2M_resource_cb_query st q).1.limits =
      [last_value "lt" q st.LWM2M_lt, last_value "gt" q st.LWM2M_gt] := by
    rw [← hlt, ← hgt, hfst]; rfl
  refine ⟨by rw [e], hlt, hgt, by rw [hfst]; exact v1, by rw [hfst]; exact v2,
    by rw [hfst]; exact v5, hlim, ?_, ?_, ?_⟩
  · rw [hlim]
    simp only [List.Sorted, List.pairwise_cons, List.mem_singleton, forall_eq,
      List.not_mem_nil, false_implies, implies_true, List.Pairwise.nil, and_true, not_le]
    exact h
  · intro x hq
    rw [hlt, hgt, hlim]
    rw [hq] at h ⊢
    have hl : last_value "lt" [{ attr := "lt", value := some x }] st.LWM2M_lt = x := by
      simp [last_value]
    have hg : last_value "gt" [{ attr := "lt", value := some x }] st.LWM2M_gt =
        st.LWM2M_gt := by
      simp [last_value]
    rw [hl, hg] at h ⊢
    exact ⟨h, rfl, rfl, rfl⟩
  · intro x hq
    rw [hlt, hgt, hlim]
    rw [hq] at h ⊢
    have hl : last_value "lt" [{ attr := "gt", value := some x }] st.LWM2M_lt =
        st.LWM2M_lt := by
      simp [last_value]
    have hg : last_value "gt" [{ attr := "gt", value := some x }] st.LWM2M_gt = x := by
      simp [last_value]
    rw [hl, hg] at h ⊢
    exact ⟨h, rfl, rfl, rfl⟩

/-- In the scenario (`lt = 50`, `gt = 60`) the pair `gt=40` is applied: `gt` becomes
`40` and the limits become `[50, 40]`; so is the batch `lt=70&gt=65`, with the limits
`[70, 65]`. -/
theorem non_ascending_update_applied_witness :
    (LWM2M_resource_cb_query scenario_start
      [{ attr := "gt", value := some 40 }]).1.limits = [50, 40] ∧
    (LWM2M_resource_cb_query scenario_start
      [{ attr := "gt", value := some 40 }]).1.LWM2M_gt = 40 ∧
    (LWM2M_resource_cb_query scenario_start
      [{ attr := "lt", value := some 70 }, { attr := "gt", value := some 65 }]).1.limits =
        [70, 65] := by
  have hlt : scenario_start.LWM2M_lt = 50 := by rw [scenario_start_eq]; rfl
  have hgt : scenario_start.LWM2M_gt = 60 := by rw [scenario_start_eq]; rfl
  have h1 := non_ascending_update_applied scenario_start [{ attr := "gt", value := some 40 }]
    (by simp [recognised]) (by rw [hlt, hgt]; simp [last_value]; norm_num)
  have h2 := non_ascending_update_applied scenario_start
    [{ attr := "lt", value := some 70 }, { attr := "gt", value := some 65 }]
    (by simp [recognised]) (by simp [last_value]; norm_num)
  refine ⟨?_, ?_, ?_⟩
  · rw [h1.2.2.2.2.2.2.1, hlt]; simp [last_value]
  · rw [h1.2.2.1]; simp [last_value]
  · rw [h2.2.2.2.2.2.2.1]; simp [last_value]

/-- The dispatch half of the thread loop when the trigger is set and the session is
observing: the diagnostic flags are cleared, the observation number is incremented,
the mailbox value is handed to the transport, and the trigger is cleared exactly when
the transport call does not return `0`. -/
theorem dispatch_attempt (st : State) (send_result : Nat)
    (ht : st.notification_trigger = true) (ho : st.LWM2M_observing = true) :
    LWM2M_notification_thread_dispatch st send_result =
      ({ st with
          pmax_exceeded := false
          pmin_trigger := false
          LWM2M_obs_number := (st.LWM2M_obs_number + 1) % 256
          notification_trigger := decide (send_result = 0) },
        some { payload := st.notify_sample,
               obs_number := (st.LWM2M_obs_number + 1) % 256 }) := by
  cases st
  simp only at ht ho
  subst ht ho
  unfold LWM2M_notification_thread_dispatch
  rename_i pe pt _ _ _ _ _ _ _ _
  cases pe <;> cases pt <;> by_cases h3 : send_result = 0 <;> simp [h3]

/-- The dispatch half of the thread loop when the trigger is clear or the session is
not observing: nothing happens. -/
theorem dispatch_idle (st : State) (send_result : Nat)
    (h : ¬ (st.notification_trigger = true ∧ st.LWM2M_observing = true)) :
    LWM2M_notification_thread_dispatch st send_result = (st, none) := by
  unfold LWM2M_notification_thread_dispatch
  rw [if_neg h]

/-- C21: the mailbox has one slot and the last value wins: after `report_sample a`
and `report_sample b` with no dispatch in between, the next dispatch (session
observing, transport call returning non-zero) hands exactly the value `b` to the
transport and clears the trigger, and a further dispatch hands over nothing and
changes nothing. -/
theorem mailbox_last_value_wins (st : State) (a b : sample) (r1 r2 : Nat)
    (ho : st.LWM2M_observing = true) (hr : r1 ≠ 0) :
    (report_sample (report_sample st a).1 b).1.notify_sample = b ∧
    (LWM2M_notification_thread_dispatch (report_sample (report_sample st a).1 b).1 r1).2 =
      some { payload := b, obs_number := (st.LWM2M_obs_number + 1) % 256 } ∧
    (LWM2M_notification_thread_dispatch
      (report_sample (report_sample st a).1 b).1 r1).1.notification_trigger = false ∧
    (LWM2M_notification_thread_dispatch
      (LWM2M_notification_thread_dispatch (report_sample (report_sample st a).1 b).1 r1).1
      r2).2 = none ∧
    (LWM2M_notification_thread_dispatch
      (LWM2M_notification_thread_dispatch (report_sample (report_sample st a).1 b).1 r1).1
      r2).1 =
      (LWM2M_notification_thread_dispatch (report_sample (report_sample st a).1 b).1 r1).1 := by
  have ho2 : (report_sample (report_sample st a).1 b).1.LWM2M_observing = true := ho
  have e := dispatch_attempt (report_sample (report_sample st a).1 b).1 r1 rfl ho2
  have ht : (LWM2M_notification_thread_dispatch
      (report_sample (report_sample st a).1 b).1 r1).1.notification_trigger = false := by
    rw [e]; simp [hr]
  have hi := dispatch_idle
    (LWM2M_notification_thread_dispatch (report_sample (report_sample st a).1 b).1 r1).1 r2
    (by rw [ht]; simp)
  refine ⟨rfl, ?_, ht, ?_, ?_⟩
  · rw [e]; rfl
  · rw [hi]
  · rw [hi]

/-- In the scenario: reports of `57` and then `58` before the thread runs; the
dispatch hands over `58`. -/
theorem mailbox_last_value_wins_witness :
    scenario_start.LWM2M_observing = true ∧ (1 : Nat) ≠ 0 ∧
    (LWM2M_notification_thread_dispatch
      (report_sample (report_sample scenario_start 57).1 58).1 1).2 =
      some { payload := 58, obs_number := (scenario_start.LWM2M_obs_number + 1) % 256 } :=
  ⟨rfl, by decide,
   (mailbox_last_value_wins scenario_start 57 58 1 1 rfl (by decide)).2.1⟩

/-- C22, on the code: a failed send is retried.  In the scenario the first dispatch
fails (`send_result = 0`): the trigger stays set, and the next dispatch hands the
same mailbox value `55` to the transport again. -/
theorem failed_send_is_retried :
    scenario_start.notification_trigger = true ∧
    scenario_start.LWM2M_observing = true ∧
    (LWM2M_notification_thread_dispatch scenario_start 0).2 =
      some { payload := 55, obs_number := 1 } ∧
    (LWM2M_notification_thread_dispatch scenario_start 0).1.notification_trigger = true ∧
    (LWM2M_notification_thread_dispatch
      (LWM2M_notification_thread_dispatch scenario_start 0).1 1).2 =
      some { payload := 55, obs_number := 2 } := by
  have e := dispatch_attempt scenario_start 0 rfl rfl
  have e2 := dispatch_attempt (LWM2M_notification_thread_dispatch scenario_start 0).1 1
    (by rw [e]; rfl) (by rw [e]; rfl)
  refine ⟨rfl, rfl, ?_, by rw [e]; rfl, ?_⟩
  · rw [e, scenario_start_eq]; rfl
  · rw [e2, e, scenario_start_eq]; rfl

/-- C22, amended to the retry: with the trigger set and the session observing, a
dispatch whose transport call fails leaves the trigger set, so the following dispatch
hands the same mailbox value to the transport again; the failure changes neither
`pmin_exceeded`, `report_scheduled`, the baseline, the mailbox value nor a timer. -/
theorem failed_send_keeps_trigger (st : State) (r : Nat)
    (ht : st.notification_trigger = true) (ho : st.LWM2M_observing = true) :
    (LWM2M_notification_thread_dispatch st 0).2 =
      some { payload := st.notify_sample, obs_number := (st.LWM2M_obs_number + 1) % 256 } ∧
    (LWM2M_notification_thread_dispatch st 0).1.notification_trigger = true ∧
    (LWM2M_notification_thread_dispatch (LWM2M_notification_thread_dispatch st 0).1 r).2 =
      some { payload := st.notify_sample,
             obs_number := ((st.LWM2M_obs_number + 1) % 256 + 1) % 256 } ∧
    (LWM2M_notification_thread_dispatch st 0).1.notify_sample = st.notify_sample ∧
    (LWM2M_notification_thread_dispatch st 0).1.pmin_exceeded = st.pmin_exceeded ∧
    (LWM2M_notification_thread_dispatch st 0).1.report_scheduled = st.report_scheduled ∧
    (LWM2M_notification_thread_dispatch st 0).1.last_band = st.last_band ∧
    (LWM2M_notification_thread_dispatch st 0).1.high_step = st.high_step ∧
    (LWM2M_notification_thread_dispatch st 0).1.low_step = st.low_step ∧
    (LWM2M_notification_thread_dispatch st 0).1.pmin_timer = st.pmin_timer ∧
    (LWM2M_notification_thread_dispatch st 0).1.pmax_timer = st.pmax_timer := by
  have e := dispatch_attempt st 0 ht ho
  have e2 := dispatch_attempt (LWM2M_notification_thread_dispatch st 0).1 r
    (by rw [e]; rfl) (by rw [e]; exact ho)
  refine ⟨by rw [e], by rw [e]; rfl, ?_, ?_, ?_, ?_, ?_, ?_, ?_, ?_, ?_⟩
  · rw [e2, e]
  all_goals rw [e]

/-- In the scenario, right after activation, the first send fails and the trigger
stays set. -/
theorem failed_send_keeps_trigger_witness :
    scenario_start.notification_trigger = true ∧
    scenario_start.LWM2M_observing = true ∧
    (LWM2M_notification_thread_dispatch scenario_start 0).1.notification_trigger = true :=
  ⟨rfl, rfl, (failed_send_keeps_trigger scenario_start 1 rfl rfl).2.1⟩

/-- C23, on the code: the observation number is incremented before the transport
call and is not restored when the call fails.  In the scenario the number is `0`
before the dispatch and `1` after a dispatch whose send fails. -/
theorem failed_send_advances_obs_number :
    scenario_start.LWM2M_obs_number = 0 ∧
    (LWM2M_notification_thread_dispatch scenario_start 0).1.LWM2M_obs_number = 1 ∧
    (LWM2M_notification_thread_dispatch scenario_start 0).1.notification_trigger = true := by
  have e := dispatch_attempt scenario_start 0 rfl rfl
  refine ⟨by rw [scenario_start_eq]; rfl, ?_, by rw [e]; rfl⟩
  rw [e, scenario_start_eq]; rfl

/-- The sampling half of the thread loop does not write the observation number. -/
theorem thread_sample_obs_number (st : State) (reading : sample) :
    (LWM2M_notification_thread_sample st reading).LWM2M_obs_number = st.LWM2M_obs_number := by
  unfold LWM2M_notification_thread_sample
  simp only []
  split_ifs with h
  · exact (scheduler_frame _ _).2.2.1.2
  · rfl

/-- C23, amended to send attempts: the observation number increases by one (modulo
256) at each dispatch that hands a notification to the transport, whether the
transport call succeeds or fails, and a dispatch hands one over exactly when the
trigger is set and the session is observing; the sampling half of the thread loop and
every other operation leave the number unchanged. -/
theorem obs_number_per_attempt (st : State) (r : Nat) :
    (LWM2M_notification_thread_dispatch st r).1.LWM2M_obs_number =
      (if st.notification_trigger = true ∧ st.LWM2M_observing = true
        then (st.LWM2M_obs_number + 1) % 256 else st.LWM2M_obs_number) ∧
    ((LWM2M_notification_thread_dispatch st r).2.isSome = true ↔
      (st.notification_trigger = true ∧ st.LWM2M_observing = true)) ∧
    (∀ reading : sample,
      (LWM2M_notification_thread_sample st reading).LWM2M_obs_number = st.LWM2M_obs_number) ∧
    (∀ op : Op, (∀ (reading : sample) (r2 : Nat), op ≠ Op.thread reading r2) →
      (Op.run st op).1.LWM2M_obs_number = st.LWM2M_obs_number) := by
  refine ⟨?_, ?_, thread_sample_obs_number st, ?_⟩
  · by_cases h : st.notification_trigger = true ∧ st.LWM2M_observing = true
    · rw [if_pos h, dispatch_attempt st r h.1 h.2]
    · rw [if_neg h, dispatch_idle st r h]
  · by_cases h : st.notification_trigger = true ∧ st.LWM2M_observing = true
    · rw [dispatch_attempt st r h.1 h.2]
      simp [h]
    · rw [dispatch_idle st r h]
      simp [h]
  · intro op hop
    cases op with
    | update s => exact (scheduler_frame st s).2.2.1.2
    | schedule s => exact (scheduler_frame st s).2.1.2
    | report s => rfl
    | pmin => exact (scheduler_frame st 0).2.2.2.1.2
    | pmax => rfl
    | reinit => rfl
    | write_attributes q => exact (LWM2M_resource_cb_query_frame st q).2
    | start => rfl
    | stop => rfl
    | thread reading r2 => exact absurd rfl (hop reading r2)

/-- C24: with the limits `[50, 60]` and `step = 5`, after `report_sample 55` the band
is `1` and the step window is `[50, 60]`; `on_update 56` changes nothing; `61` is in
band `2` and `on_update 61` only sets `report_scheduled`, the mailbox still holding
`55`; the following `on_pmin` clears `report_scheduled`, reports the then current
sample and attaches both timers anew. -/
theorem scenario_55_56_61 (st : State) (hl : st.limits = [50, 60]) (hs : st.LWM2M_step = 5) :
    (report_sample st 55).1.last_band = 1 ∧
    (report_sample st 55).1.low_step = 50 ∧
    (report_sample st 55).1.high_step = 60 ∧
    on_update (report_sample st 55).1 56 = (report_sample st 55).1 ∧
    band (report_sample st 55).1.limits 61 = 2 ∧
    on_update (report_sample st 55).1 61 =
      { (report_sample st 55).1 with report_scheduled := true } ∧
    (on_update (report_sample st 55).1 61).notify_sample = 55 ∧
    (on_update (report_sample st 55).1 61).pmin_timer = (report_sample st 55).1.pmin_timer ∧
    (on_pmin (on_update (report_sample st 55).1 61)).report_scheduled = false ∧
    (on_pmin (on_update (report_sample st 55).1 61)).notify_sample = get_sample st ∧
    (on_pmin (on_update (report_sample st 55).1 61)).notification_trigger = true ∧
    (on_pmin (on_update (report_sample st 55).1 61)).pmin_timer.attached =
      some (Handler.on_pmin, st.LWM2M_pmin) ∧
    (on_pmin (on_update (report_sample st 55).1 61)).pmax_timer.attached =
      some (Handler.on_pmax, st.LWM2M_pmax) ∧
    (on_pmin (on_update (report_sample st 55).1 61)).pmin_exceeded = false := by
  have hb55 : band [50, 60] 55 = 1 := by decide
  have hb56 : band [50, 60] 56 = 1 := by decide
  have hb61 : band [50, 60] 61 = 2 := by decide
  have h1 : (report_sample st 55).1.last_band = 1 := by
    simp only [report_sample_fst, hl, hb55]
  have h2 : (report_sample st 55).1.low_step = 50 := by
    simp only [report_sample_fst, hs]; norm_num
  have h3 : (report_sample st 55).1.high_step = 60 := by
    simp only [report_sample_fst, hs]; norm_num
  have hlim : (report_sample st 55).1.limits = [50, 60] := hl
  have h4 : on_update (report_sample st 55).1 56 = (report_sample st 55).1 := by
    have hn : ¬ (band (report_sample st 55).1.limits 56 ≠ (report_sample st 55).1.last_band ∨
        (56 : sample) ≥ (report_sample st 55).1.high_step ∨
        (56 : sample) ≤ (report_sample st 55).1.low_step) := by
      rw [hlim, h1, h2, h3, hb56]; norm_num
    simp only [on_update, if_neg hn]
  have h5 : band (report_sample st 55).1.limits 61 = 2 := by rw [hlim, hb61]
  have hr : reportable (report_sample st 55).1 61 = true := by
    simp only [reportable, decide_eq_true_eq]
    left; rw [h5, h1]; decide
  have hq := on_update_quiet (report_sample st 55).1 61 rfl
  rw [hr, Bool.or_true] at hq
  have hp := on_pmin_of_scheduled { (report_sample st 55).1 with report_scheduled := true } rfl
  refine ⟨h1, h2, h3, h4, h5, hq, ?_, ?_, ?_, ?_, ?_, ?_, ?_, ?_⟩
  · rw [hq]; rfl
  · rw [hq]
  all_goals rw [hq, hp]; rfl

/-- The scenario state before activation has the attributes `lt = 50`, `gt = 60`,
`st = 5`; with the limits set from them, `on_update 56` after the report of `55`
changes nothing. -/
theorem scenario_55_56_61_witness :
    ({ initial_state 60 50 5 60 10 with limits := [50, 60] } : State).limits = [50, 60] ∧
    ({ initial_state 60 50 5 60 10 with limits := [50, 60] } : State).LWM2M_step = 5 ∧
    on_update (report_sample { initial_state 60 50 5 60 10 with limits := [50, 60] } 55).1 56 =
      (report_sample { initial_state 60 50 5 60 10 with limits := [50, 60] } 55).1 :=
  ⟨rfl, rfl,
   (scenario_55_56_61 { initial_state 60 50 5 60 10 with limits := [50, 60] } rfl rfl).2.2.2.1⟩

/-- C27: when `lt > gt`, the limits `[lt, gt]` that `LWM2M_notification_init` stores
give `band s = 2` for `s > gt` and `band s = 0` otherwise, never `1`: two bands split
at `gt`, whatever `lt` is. -/
theorem band_non_ascending (st : State) (s : sample) (h : st.LWM2M_gt < st.LWM2M_lt) :
    (LWM2M_notification_init st).limits = [st.LWM2M_lt, st.LWM2M_gt] ∧
    band (LWM2M_notification_init st).limits s = (if s > st.LWM2M_gt then 2 else 0) ∧
    band (LWM2M_notification_init st).limits s ≠ 1 ∧
    (∀ lt gt x : sample, gt < lt → band [lt, gt] x = (if x > gt then 2 else 0)) := by
  have key : ∀ lt gt x : sample, gt < lt → band [lt, gt] x = (if x > gt then 2 else 0) := by
    intro lt gt x hlt
    by_cases hx : x > gt
    · simp [band, hx]
    · have h1 : x ≤ lt := le_trans (not_lt.mp hx) (le_of_lt hlt)
      simp [band, band_loop, hx, h1]
  have hl : (LWM2M_notification_init st).limits = [st.LWM2M_lt, st.LWM2M_gt] := rfl
  refine ⟨hl, ?_, ?_, key⟩
  · rw [hl]; exact key _ _ s h
  · rw [hl, key _ _ s h]
    split_ifs <;> decide

/-- The limits `lt = 70`, `gt = 60`: the sample `65`, between the two, is in band `2`
and the sample `55` is in band `0`. -/
theorem band_non_ascending_witness :
    ({ initial_state 60 70 5 60 10 with current_sample := 55 } : State).LWM2M_gt <
      ({ initial_state 60 70 5 60 10 with current_sample := 55 } : State).LWM2M_lt ∧
    band (LWM2M_notification_init
      { initial_state 60 70 5 60 10 with current_sample := 55 }).limits 65 = 2 ∧
    band (LWM2M_notification_init
      { initial_state 60 70 5 60 10 with current_sample := 55 }).limits 55 = 0 := by
  have h : ({ initial_state 60 70 5 60 10 with current_sample := 55 } : State).LWM2M_gt <
      ({ initial_state 60 70 5 60 10 with current_sample := 55 } : State).LWM2M_lt := by
    norm_num [initial_state]
  have h65 := (band_non_ascending { initial_state 60 70 5 60 10 with current_sample := 55 }
    65 h).2.1
  have h55 := (band_non_ascending { initial_state 60 70 5 60 10 with current_sample := 55 }
    55 h).2.1
  refine ⟨h, ?_, ?_⟩
  · rw [h65]; norm_num [initial_state]
  · rw [h55]; norm_num [initial_state]

/-- Every `report_sample` is a report step. -/
theorem sched_step_report (st0 st : State) (s : sample) :
    sched_step st0 (report_sample st s).1 :=
  Or.inr (Or.inl ⟨rfl, rfl, rfl⟩)

/-- The function `schedule_report` either reports or defers. -/
theorem sched_step_schedule (st : State) (s : sample) :
    sched_step st (schedule_report st s) := by
  unfold schedule_report
  split_ifs with h
  · exact sched_step_report st st s
  · exact Or.inr (Or.inr (Or.inl ⟨by simpa using h, by simpa using h, rfl, rfl⟩))

/-- The function `on_update` reports, defers or does nothing. -/
theorem sched_step_update (st : State) (s : sample) : sched_step st (on_update st s) := by
  unfold on_update
  split_ifs
  · exact sched_step_schedule st s
  · exact Or.inl ⟨rfl, rfl, rfl, rfl⟩

/-- The handler `on_pmin` reports or ends the quiet period. -/
theorem sched_step_pmin (st : State) : sched_step st (on_pmin st) := by
  by_cases h : st.report_scheduled = true
  · rw [on_pmin_of_scheduled st h]
    exact sched_step_report st _ _
  · have h0 : st.report_scheduled = false := by simpa using h
    rw [on_pmin_of_not_scheduled st h0]
    exact Or.inr (Or.inr (Or.inr ⟨h0, rfl, rfl, rfl⟩))

/-- The write-attributes request re-initialises (a report) or changes nothing of the
scheduler. -/
theorem sched_step_query (st : State) (q : List QueryOption) :
    sched_step st (LWM2M_resource_cb_query st q).1 := by
  unfold LWM2M_resource_cb_query
  simp only []
  split_ifs
  · exact sched_step_report st _ _
  · obtain ⟨_, _, _, _, _, _, _, _, h9, h10, h11, h12, _⟩ :=
      set_notification_attributes_frame { st with attribute_update := false } q
    exact Or.inl ⟨h9, h10, h11, h12⟩

/-- An operation that follows a scheduler step and leaves the flags and timers alone
gives the same kind of step. -/
theorem sched_step_then_frame (st st2 st3 : State) (h : sched_step st st2)
    (h1 : st3.pmin_exceeded = st2.pmin_exceeded)
    (h2 : st3.report_scheduled = st2.report_scheduled)
    (h3 : st3.pmin_timer = st2.pmin_timer) (h4 : st3.pmax_timer = st2.pmax_timer) :
    sched_step st st3 := by
  unfold sched_step at h ⊢
  rw [h1, h2, h3, h4]
  exact h

/-- The dispatch half of the thread loop writes neither the scheduler flags nor a
timer. -/
theorem dispatch_frame (st : State) (r : Nat) :
    (LWM2M_notification_thread_dispatch st r).1.pmin_exceeded = st.pmin_exceeded ∧
    (LWM2M_notification_thread_dispatch st r).1.report_scheduled = st.report_scheduled ∧
    (LWM2M_notification_thread_dispatch st r).1.pmin_timer = st.pmin_timer ∧
    (LWM2M_notification_thread_dispatch st r).1.pmax_timer = st.pmax_timer := by
  by_cases h : st.notification_trigger = true ∧ st.LWM2M_observing = true
  · rw [dispatch_attempt st r h.1 h.2]
    exact ⟨rfl, rfl, rfl, rfl⟩
  · rw [dispatch_idle st r h]
    exact ⟨rfl, rfl, rfl, rfl⟩

/-- The sampling half of the thread loop is an `on_update` or nothing. -/
theorem sched_step_thread_sample (st : State) (reading : sample) :
    sched_step st (LWM2M_notification_thread_sample st reading) := by
  unfold LWM2M_notification_thread_sample
  simp only []
  split_ifs
  · exact sched_step_update
      { st with current_sample := reading * 100, last_sample := reading * 100 } _
  · exact Or.inl ⟨rfl, rfl, rfl, rfl⟩

/-- Every operation is a scheduler step. -/
theorem Op.run_sched_step (st : State) (op : Op) : sched_step st (Op.run st op).1 := by
  cases op with
  | update s => exact sched_step_update st s
  | schedule s => exact sched_step_schedule st s
  | report s => exact sched_step_report st st s
  | pmin => exact sched_step_pmin st
  | pmax => exact Or.inr (Or.inl ⟨rfl, rfl, rfl⟩)
  | reinit => exact Or.inr (Or.inl ⟨rfl, rfl, rfl⟩)
  | write_attributes q => exact sched_step_query st q
  | start => exact Or.inr (Or.inl ⟨rfl, rfl, rfl⟩)
  | stop => exact Or.inl ⟨rfl, rfl, rfl, rfl⟩
  | thread reading r =>
    obtain ⟨h1, h2, h3, h4⟩ :=
      dispatch_frame (LWM2M_notification_thread_sample st reading) r
    exact sched_step_then_frame st _ _ (sched_step_thread_sample st reading) h1 h2 h3 h4

/-- A scheduler step keeps: a scheduled report implies that pmin is not exceeded. -/
theorem sched_step_flags (st st2 : State) (h : sched_step st st2)
    (hi : st.report_scheduled = true → st.pmin_exceeded = false) :
    st2.report_scheduled = true → st2.pmin_exceeded = false := by
  intro hs
  rcases h with ⟨h1, h2, _, _⟩ | ⟨h1, _, _⟩ | ⟨_, h1, _, _⟩ | ⟨h1, _, _, _⟩
  · rw [h1]; exact hi (h2 ▸ hs)
  · exact h1
  · exact h1
  · rw [h1] at hs; exact absurd hs Bool.false_ne_true

/-- A scheduler step keeps: the pmax timer is attached, and the pmin timer is attached
exactly when pmin is not exceeded. -/
theorem sched_step_timers (st st2 : State) (h : sched_step st st2)
    (hi : st.pmax_timer.attached.isSome = true ∧
      (st.pmin_timer.attached.isSome = true ↔ st.pmin_exceeded = false)) :
    st2.pmax_timer.attached.isSome = true ∧
      (st2.pmin_timer.attached.isSome = true ↔ st2.pmin_exceeded = false) := by
  rcases h with ⟨h1, _, h3, h4⟩ | ⟨h1, h2, h3⟩ | ⟨h0, h1, h3, h4⟩ | ⟨_, h1, h3, h4⟩
  · rw [h1, h3, h4]; exact hi
  · exact ⟨h3, fun _ => h1, fun _ => h2⟩
  · rw [h1, h3, h4]
    exact ⟨hi.1, fun _ => rfl, fun _ => hi.2.mpr h0⟩
  · rw [h1, h3, h4]
    exact ⟨hi.1, by simp⟩

/-- The flags invariant along a run. -/
theorem run_ops_flags (st : State) (ops : List Op)
    (hi : st.report_scheduled = true → st.pmin_exceeded = false) :
    (run_ops st ops).1.report_scheduled = true → (run_ops st ops).1.pmin_exceeded = false := by
  induction ops generalizing st with
  | nil => exact hi
  | cons op rest ih =>
    exact ih (Op.run st op).1 (sched_step_flags st _ (Op.run_sched_step st op) hi)

/-- The timer invariant along a run. -/
theorem run_ops_timers (st : State) (ops : List Op)
    (hi : st.pmax_timer.attached.isSome = true ∧
      (st.pmin_timer.attached.isSome = true ↔ st.pmin_exceeded = false)) :
    (run_ops st ops).1.pmax_timer.attached.isSome = true ∧
      ((run_ops st ops).1.pmin_timer.attached.isSome = true ↔
        (run_ops st ops).1.pmin_exceeded = false) := by
  induction ops generalizing st with
  | nil => exact hi
  | cons op rest ih =>
    exact ih (Op.run st op).1 (sched_step_timers st _ (Op.run_sched_step st op) hi)

/-- C25: in every state reached from a state with `pmin_exceeded = false` (such as
the initial state, where `report_scheduled = false` too) by a run of `on_update`,
`schedule_report`, `report_sample`, `on_pmin`, `on_pmax`, re-initialisation,
write-attributes requests, starts, stops and passes of the thread loop,
`report_scheduled = true` implies `pmin_exceeded = false`. -/
theorem scheduled_implies_quiet (st : State) (ops : List Op)
    (h1 : st.pmin_exceeded = false) :
    ((run_ops st ops).1.report_scheduled = true → (run_ops st ops).1.pmin_exceeded = false) ∧
    (∀ D_GT D_LT D_STEP D_PMAX D_PMIN : sample,
      (run_ops (initial_state D_GT D_LT D_STEP D_PMAX D_PMIN) ops).1.report_scheduled = true →
      (run_ops (initial_state D_GT D_LT D_STEP D_PMAX D_PMIN) ops).1.pmin_exceeded = false) :=
  ⟨run_ops_flags st ops (fun _ => h1),
   fun D_GT D_LT D_STEP D_PMAX D_PMIN =>
     run_ops_flags (initial_state D_GT D_LT D_STEP D_PMAX D_PMIN) ops (fun _ => rfl)⟩

/-- From the initial state: start, a sample outside the band, the expiry of pmin (a
report), another sample outside the window, and a stop; a report is then scheduled
and pmin is not exceeded. -/
theorem scheduled_implies_quiet_witness :
    (initial_state 60 50 5 60 10).pmin_exceeded = false ∧
    (initial_state 60 50 5 60 10).report_scheduled = false ∧
    (run_ops (initial_state 60 50 5 60 10)
      [Op.start, Op.update 61, Op.pmin, Op.update 70, Op.stop]).1.report_scheduled = true ∧
    (run_ops (initial_state 60 50 5 60 10)
      [Op.start, Op.update 61, Op.pmin, Op.update 70, Op.stop]).1.pmin_exceeded = false := by
  have hb0 : band [50, 60] 0 = 0 := by decide
  have hb61 : band [50, 60] 61 = 2 := by decide
  have hb70 : band [50, 60] 70 = 2 := by decide
  have hs : (run_ops (initial_state 60 50 5 60 10)
      [Op.start, Op.update 61, Op.pmin, Op.update 70, Op.stop]).1.report_scheduled = true := by
    simp [run_ops, Op.run, LWM2M_start_notification, LWM2M_notification_init,
      LWM2M_stop_notification, report_sample_fst, get_sample, initial_state, on_update,
      schedule_report, on_pmin, hb0, hb61, hb70]
  exact ⟨rfl, rfl, hs,
    (scheduled_implies_quiet (initial_state 60 50 5 60 10)
      [Op.start, Op.update 61, Op.pmin, Op.update 70, Op.stop] rfl).1 hs⟩

/-- C26: in every state reached after a `report_sample` by a run of `on_update`,
`schedule_report`, `report_sample`, `on_pmin`, `on_pmax`, re-initialisation,
write-attributes requests, starts, stops and passes of the thread loop, the pmax
timer is attached, the pmin timer is attached exactly when `pmin_exceeded = false`,
and a scheduled report has the pmin timer attached. -/
theorem timers_armed_after_report (st : State) (v : sample) (ops : List Op) :
    (run_ops (report_sample st v).1 ops).1.pmax_timer.attached.isSome = true ∧
    ((run_ops (report_sample st v).1 ops).1.pmin_timer.attached.isSome = true ↔
      (run_ops (report_sample st v).1 ops).1.pmin_exceeded = false) ∧
    ((run_ops (report_sample st v).1 ops).1.report_scheduled = true →
      (run_ops (report_sample st v).1 ops).1.pmin_timer.attached.isSome = true) := by
  have ht := run_ops_timers (report_sample st v).1 ops ⟨rfl, fun _ => rfl, fun _ => rfl⟩
  have hf := run_ops_flags (report_sample st v).1 ops (fun _ => rfl)
  exact ⟨ht.1, ht.2, fun hs => ht.2.mpr (hf hs)⟩

end LWM2M
